import Mathlib

/-!
Shallow embedding of the gorpn RPN expression evaluator (eval.go) and
verification of its specification claims.

Modelling conventions:

* Go `float64` values are modelled by `RVal`: NaN, the two signed
  infinities, and finite values as exact rationals.  Every claim under
  scrutiny concerns special-value handling (NaN/Inf propagation), exact
  comparisons, control flow, and small exact arithmetic, none of which
  depend on binary rounding.  The transcendental kernels (`math.Sin`,
  `math.Sqrt`, fractional `math.Pow`, ...) and the local-calendar
  functions used by the time pseudo-variables produce values a rational
  model cannot express; they are abstracted as parameters (`TransOps`)
  and all theorems are proved for every choice of kernels.
* Go `interface{}` stack cells are modelled by `GoVal`: a float
  (`gf`), a string (`gs`), or a Go `int` (`gi`) — the last arises only
  from the `DEPTH` operator, which stores `e.scratchHead` (an `int`)
  into the scratch slice.
* A scratch cell pairs its value with the `isFloat` flag maintained by
  the Go code (`Cell`), because the two can disagree (`DEPTH` sets the
  flag true on a non-float value).
* Go runtime panics (failed `x.(float64)` / `x.(string)` type
  assertions without the comma-ok form, out-of-range indexing and
  slicing) are modelled as the distinct error `Err.panicked`, never as
  an `ErrSyntax`.
* The scratch slice is modelled as an unbounded list (top of stack =
  head of list); Go capacity bookkeeping for `COPY` is not modelled.
* Binding coercion (`coerceMapValuesToFloat64`) normalises Go dynamic
  values into `float64` / `[]float64`; the embedding takes bindings
  already in that normal form (`BVal`).
-/

set_option linter.unusedVariables false

namespace Gorpn

/-- Model of a Go `float64`: NaN, +Inf, -Inf, or a finite value
(represented exactly as a rational). -/
inductive RVal : Type
  | nan : RVal
  | pinf : RVal
  | ninf : RVal
  | fin : ℚ → RVal
  deriving DecidableEq, Repr

namespace RVal

/-- `math.IsNaN`. -/
def isNaN : RVal → Bool
  | nan => true
  | _ => false

/-- `math.IsInf(x, 1)`. -/
def isPInf : RVal → Bool
  | pinf => true
  | _ => false

/-- `math.IsInf(x, -1)`. -/
def isNInf : RVal → Bool
  | ninf => true
  | _ => false

/-- Go float `==` comparison (NaN is equal to nothing, not even itself). -/
def feq : RVal → RVal → Bool
  | fin a, fin b => a == b
  | pinf, pinf => true
  | ninf, ninf => true
  | _, _ => false

/-- Go float `<` comparison (false whenever an operand is NaN). -/
def flt : RVal → RVal → Bool
  | fin a, fin b => a < b
  | fin _, pinf => true
  | ninf, fin _ => true
  | ninf, pinf => true
  | _, _ => false

/-- Go float `<=`. -/
def fle (a b : RVal) : Bool := flt a b || feq a b

/-- Go float `>`. -/
def fgt (a b : RVal) : Bool := flt b a

/-- Go float `>=`. -/
def fge (a b : RVal) : Bool := fle b a

/-- IEEE addition as performed by Go `+` on float64 (rounding ignored:
finite sums are exact rationals). -/
def add : RVal → RVal → RVal
  | nan, _ => nan
  | _, nan => nan
  | pinf, ninf => nan
  | ninf, pinf => nan
  | pinf, _ => pinf
  | _, pinf => pinf
  | ninf, _ => ninf
  | _, ninf => ninf
  | fin a, fin b => fin (a + b)

/-- IEEE negation. -/
def neg : RVal → RVal
  | nan => nan
  | pinf => ninf
  | ninf => pinf
  | fin a => fin (-a)

/-- IEEE subtraction as performed by Go `-`. -/
def sub (a b : RVal) : RVal := add a (neg b)

/-- IEEE multiplication as performed by Go `*` (Inf * 0 = NaN). -/
def mul : RVal → RVal → RVal
  | nan, _ => nan
  | _, nan => nan
  | pinf, pinf => pinf
  | pinf, ninf => ninf
  | ninf, pinf => ninf
  | ninf, ninf => pinf
  | pinf, fin b => if b = 0 then nan else if 0 < b then pinf else ninf
  | ninf, fin b => if b = 0 then nan else if 0 < b then ninf else pinf
  | fin a, pinf => if a = 0 then nan else if 0 < a then pinf else ninf
  | fin a, ninf => if a = 0 then nan else if 0 < a then ninf else pinf
  | fin a, fin b => fin (a * b)

/-- IEEE division as performed by Go `/` (0/0 = NaN, x/0 = ±Inf for
x ≠ 0 with the sign of x, Inf/Inf = NaN; the model has a single zero,
matching the non-negative zeros that arise in the evaluator). -/
def div : RVal → RVal → RVal
  | nan, _ => nan
  | _, nan => nan
  | pinf, pinf => nan
  | pinf, ninf => nan
  | ninf, pinf => nan
  | ninf, ninf => nan
  | pinf, fin b => if 0 ≤ b then pinf else ninf
  | ninf, fin b => if 0 ≤ b then ninf else pinf
  | fin _, pinf => fin 0
  | fin _, ninf => fin 0
  | fin a, fin b =>
      if b = 0 then (if a = 0 then nan else if 0 < a then pinf else ninf)
      else fin (a / b)

/-- The floor of a rational, computed directly with Euclidean/floor
integer division so the kernel can evaluate it (the denominator of a
`Rat` is positive). -/
def qfloor (q : ℚ) : ℤ := Int.fdiv q.num q.den

/-- The ceiling of a rational, computed directly. -/
def qceil (q : ℚ) : ℤ := -Int.fdiv (-q.num) q.den

/-- Truncation of a rational toward zero, mirroring Go `int(x)` on a
finite float64. -/
def qtrunc (q : ℚ) : ℤ := Int.tdiv q.num q.den

/-- `math.Mod(x, y)`: result has the sign of x; NaN when x is Inf or
y is 0 or either is NaN; `Mod(x, ±Inf) = x`. -/
def fmod : RVal → RVal → RVal
  | nan, _ => nan
  | _, nan => nan
  | pinf, _ => nan
  | ninf, _ => nan
  | fin x, pinf => fin x
  | fin x, ninf => fin x
  | fin x, fin y =>
      if y = 0 then nan else fin (x - (qtrunc (x / y)) * y)

/-- `math.Abs`. -/
def fabs : RVal → RVal
  | nan => nan
  | pinf => pinf
  | ninf => pinf
  | fin a => fin |a|

/-- `math.Ceil` (NaN and infinities pass through). -/
def fceil : RVal → RVal
  | nan => nan
  | pinf => pinf
  | ninf => ninf
  | fin a => fin (qceil a)

/-- `math.Floor` (NaN and infinities pass through). -/
def ffloor : RVal → RVal
  | nan => nan
  | pinf => pinf
  | ninf => ninf
  | fin a => fin (qfloor a)

/-- The comparison used by Go `sort.Float64s`: ascending, with NaN
ordered before every other value. -/
def sortLess (a b : RVal) : Bool := flt a b || (isNaN a && !isNaN b)

end RVal

/-- Insert into a list sorted by `RVal.sortLess` (ascending). -/
def insertSorted (x : RVal) : List RVal → List RVal
  | [] => [x]
  | y :: ys => if RVal.sortLess y x then y :: insertSorted x ys else x :: y :: ys

/-- `sort.Float64s`: sort ascending with NaN first.  (Go uses an
unstable sort; equal float64 values are indistinguishable, so a stable
insertion sort has the same observable behaviour.) -/
def sortFloat64s : List RVal → List RVal
  | [] => []
  | x :: xs => insertSorted x (sortFloat64s xs)

/-- Decimal digits of the fractional part of a non-negative rational,
with fuel.  Every float64 has a terminating decimal expansion, so the
fuel never runs out on values arising from the evaluator. -/
def fracDigits : ℕ → ℚ → String
  | 0, _ => ""
  | _, 0 => ""
  | fuel + 1, r =>
      let r10 := r * 10
      let d := (RVal.qfloor r10).toNat
      String.singleton (Char.ofNat (48 + d)) ++ fracDigits fuel (r10 - RVal.qfloor r10)

/-- Plain decimal rendering of a rational, mirroring `fmt.Sprint` /
`strconv.FormatFloat(v, 'g', -1, 64)` on the ordinary range.  (Go
switches to scientific notation for very large/small magnitudes; no
claim exercises that range.) -/
def fmtQnn (q : ℚ) : String :=
  let ip := (RVal.qfloor q).toNat
  let frac := q - RVal.qfloor q
  if frac = 0 then toString ip
  else toString ip ++ "." ++ fracDigits 64 frac

/-- Signed decimal rendering (see `fmtQnn`). -/
def fmtQ (q : ℚ) : String :=
  if q < 0 then "-" ++ fmtQnn (-q) else fmtQnn q

/-- `fmt.Sprintf("%v", x)` on a float64, as used in error messages. -/
def fmtVal : RVal → String
  | RVal.nan => "NaN"
  | RVal.pinf => "+Inf"
  | RVal.ninf => "-Inf"
  | RVal.fin q => fmtQ q

/-- The float64 branch of `Expression.String()`: NaN prints `UNKN`,
the infinities print `INF`/`NEGINF`, other values print decimally. -/
def renderVal : RVal → String
  | RVal.nan => "UNKN"
  | RVal.pinf => "INF"
  | RVal.ninf => "NEGINF"
  | RVal.fin q => fmtQ q

/-- A Go `interface{}` value as stored in `Expression.tokens` and
`Expression.scratch`: a float64, a string, or an `int` (the latter is
produced only by `DEPTH`). -/
inductive GoVal : Type
  | gf : RVal → GoVal
  | gs : String → GoVal
  | gi : ℕ → GoVal
  deriving DecidableEq, Repr

namespace GoVal

/-- Whether the dynamic value is a float64 (the `_, ok := v.(float64)`
comma-ok test). -/
def isGf : GoVal → Bool
  | gf _ => true
  | _ => false

/-- `%T` of the dynamic value, as printed by `ExpectedFloat.Error()`. -/
def typeName : GoVal → String
  | gf _ => "float64"
  | gs _ => "string"
  | gi _ => "int"

end GoVal

/-- Rendering of one token by `Expression.String()`. -/
def renderTok : GoVal → String
  | GoVal.gf x => renderVal x
  | GoVal.gs s => s
  | GoVal.gi n => toString n

/-- One scratch slot: the dynamic value together with the cached
`isFloat` flag.  The flag is maintained separately by the Go code and
can disagree with the value (`DEPTH` stores an `int` with the flag set
to true). -/
structure Cell : Type where
  v : GoVal
  isF : Bool
  deriving DecidableEq, Repr

/-- Push helper: a float64 cell. -/
def fcell (x : RVal) : Cell := ⟨GoVal.gf x, true⟩

/-- Push helper: a symbol cell. -/
def scell (s : String) : Cell := ⟨GoVal.gs s, false⟩

/-- The evaluator's error outcomes.  `errSyntax` carries the formatted
message (without the `"syntax error : "` prefix added by `Error()`);
`panicked` models a Go runtime panic (failed type assertion,
out-of-range index or slice), which is not a returned error in Go but
aborts evaluation. -/
inductive Err : Type
  | errSyntax : String → Err
  | expectedFloat : String → Err
  | openBindings : List String → Err
  | panicked : String → Err
  deriving DecidableEq, Repr

/-- The `Error()` string of an error value (`ErrSyntax.Error` prefixes
`"syntax error "` and the message itself starts with `": "`). -/
def errText : Err → String
  | Err.errSyntax msg => "syntax error " ++ msg
  | Err.expectedFloat t => "expected float: " ++ t
  | Err.openBindings names => "open bindings: " ++ String.intercalate "," names
  | Err.panicked msg => "runtime panic: " ++ msg

/-- `newErrSyntax`: formatted messages are prefixed with `": "`. -/
def synErr (m : String) : Err := Err.errSyntax (": " ++ m)

/-- A coerced binding value: a scalar float64 or a series
(`[]float64`), the two shapes produced by `coerceMapValuesToFloat64`. -/
inductive BVal : Type
  | scalar : RVal → BVal
  | series : List RVal → BVal
  deriving DecidableEq, Repr

/-- Bindings after coercion: symbol name to coerced value. -/
def Bindings : Type := List (String × BVal)

instance : EmptyCollection Bindings := ⟨([] : List (String × BVal))⟩

/-- Map lookup on bindings. -/
def blookup (b : Bindings) (k : String) : Option BVal :=
  match b with
  | ([] : List (String × BVal)) => none
  | (k₁, v) :: rest => if k₁ = k then some v else blookup rest k

/-- The open-bindings counter map (symbol name to occurrence count;
counts may go negative via TREND/TRENDNAN). -/
def OpenB : Type := List (String × ℤ)

instance : EmptyCollection OpenB := ⟨([] : List (String × ℤ))⟩

instance : DecidableEq OpenB := inferInstanceAs (DecidableEq (List (String × ℤ)))

instance : DecidableEq Bindings := inferInstanceAs (DecidableEq (List (String × BVal)))

/-- `e.openBindings[k]` with Go's zero default. -/
def obGet (ob : OpenB) (k : String) : ℤ :=
  match ob with
  | ([] : List (String × ℤ)) => 0
  | (k₁, v) :: rest => if k₁ = k then v else obGet rest k

/-- `e.openBindings[k] = e.openBindings[k] + d` (insertion order kept
for determinism; Go map iteration order is unspecified). -/
def obAdd (ob : OpenB) (k : String) (d : ℤ) : OpenB :=
  match ob with
  | ([] : List (String × ℤ)) => [(k, d)]
  | (k₁, v) :: rest => if k₁ = k then (k₁, v + d) :: rest else (k₁, v) :: obAdd rest k d

/-- Names with a positive remaining count (the filter in `Evaluate` and
`OpenBindings()`). -/
def obPositive (ob : OpenB) : List String :=
  (ob.filter (fun p => 0 < p.2)).map (fun p => p.1)

/-- One row of the `arity` table: items popped, and the two check
windows (offset/length from the top of stack) for the float check and
for the not-an-unresolved-operator check. -/
structure ArityTuple : Type where
  popCount : ℕ
  floatOffset : ℕ
  floatCount : ℕ
  nonOperatorOffset : ℕ
  nonOperatorCount : ℕ
  deriving DecidableEq, Repr

/-- The `arity` map of eval.go, transcribed row by row. -/
def arity : String → Option ArityTuple
  | "%" => some ⟨2, 2, 0, 0, 0⟩
  | "*" => some ⟨2, 2, 0, 0, 0⟩
  | "+" => some ⟨2, 2, 0, 0, 0⟩
  | "-" => some ⟨2, 2, 0, 0, 0⟩
  | "/" => some ⟨2, 2, 0, 0, 0⟩
  | "ABS" => some ⟨1, 1, 1, 0, 0⟩
  | "ADDNAN" => some ⟨2, 2, 2, 0, 0⟩
  | "ATAN" => some ⟨1, 1, 1, 0, 0⟩
  | "ATAN2" => some ⟨2, 2, 2, 0, 0⟩
  | "AVG" => some ⟨1, 1, 1, 0, 0⟩
  | "CEIL" => some ⟨1, 1, 1, 0, 0⟩
  | "COPY" => some ⟨1, 1, 1, 0, 0⟩
  | "COS" => some ⟨1, 1, 1, 0, 0⟩
  | "DEG2RAD" => some ⟨1, 1, 1, 0, 0⟩
  | "DEPTH" => some ⟨0, 0, 0, 0, 0⟩
  | "DUP" => some ⟨1, 0, 0, 1, 1⟩
  | "EQ" => some ⟨2, 0, 0, 2, 2⟩
  | "EXC" => some ⟨2, 0, 0, 2, 2⟩
  | "EXP" => some ⟨1, 1, 1, 0, 0⟩
  | "FLOOR" => some ⟨1, 1, 1, 0, 0⟩
  | "GE" => some ⟨2, 0, 0, 2, 2⟩
  | "GT" => some ⟨2, 0, 0, 2, 2⟩
  | "IF" => some ⟨3, 3, 1, 2, 2⟩
  | "INDEX" => some ⟨1, 1, 1, 0, 0⟩
  | "ISINF" => some ⟨1, 1, 1, 0, 0⟩
  | "LE" => some ⟨2, 0, 0, 2, 2⟩
  | "LIMIT" => some ⟨3, 3, 3, 0, 0⟩
  | "LOG" => some ⟨1, 1, 1, 0, 0⟩
  | "LT" => some ⟨2, 0, 0, 2, 2⟩
  | "MAD" => some ⟨1, 1, 1, 0, 0⟩
  | "MAX" => some ⟨2, 0, 0, 2, 2⟩
  | "MAXNAN" => some ⟨2, 0, 0, 2, 2⟩
  | "MEDIAN" => some ⟨1, 1, 1, 0, 0⟩
  | "MIN" => some ⟨2, 0, 0, 2, 2⟩
  | "MINNAN" => some ⟨2, 0, 0, 2, 2⟩
  | "NE" => some ⟨2, 0, 0, 2, 2⟩
  | "PERCENT" => some ⟨2, 2, 2, 0, 0⟩
  | "POP" => some ⟨1, 0, 0, 0, 0⟩
  | "POW" => some ⟨2, 2, 0, 0, 0⟩
  | "RAD2DEG" => some ⟨1, 1, 1, 0, 0⟩
  | "REV" => some ⟨1, 1, 1, 0, 0⟩
  | "ROLL" => some ⟨2, 2, 2, 0, 0⟩
  | "SIN" => some ⟨1, 1, 1, 0, 0⟩
  | "SMAX" => some ⟨1, 1, 1, 0, 0⟩
  | "SMIN" => some ⟨1, 1, 1, 0, 0⟩
  | "SORT" => some ⟨1, 1, 1, 0, 0⟩
  | "SQRT" => some ⟨1, 1, 1, 0, 0⟩
  | "STDEV" => some ⟨1, 1, 1, 0, 0⟩
  | "TREND" => some ⟨2, 1, 1, 2, 1⟩
  | "TRENDNAN" => some ⟨2, 1, 1, 2, 1⟩
  | "UN" => some ⟨1, 1, 1, 0, 0⟩
  | _ => none

/-- Abstract kernels for the operations a rational model cannot express
exactly: the transcendental math functions and the local-calendar
queries behind the time pseudo-variables.  Every theorem below holds
for every choice of kernels, because no claim depends on their values. -/
structure TransOps : Type where
  sinF : RVal → RVal
  cosF : RVal → RVal
  atanF : RVal → RVal
  expF : RVal → RVal
  logF : RVal → RVal
  sqrtF : RVal → RVal
  deg2radF : RVal → RVal
  rad2degF : RVal → RVal
  atan2F : RVal → RVal → RVal
  powFracF : ℚ → ℚ → RVal
  jDayOfMonth : ℤ → ℕ
  jMonth : ℤ → ℕ
  jWeekdayIsSunday : ℤ → Bool
  jOffset : ℤ → ℤ

/-- A vacuous choice of kernels, used only to instantiate witnesses. -/
def dummyOps : TransOps :=
  ⟨id, id, id, id, id, id, id, id, fun _ _ => RVal.nan, fun _ _ => RVal.nan,
   fun _ => 1, fun _ => 1, fun _ => false, fun _ => 0⟩

/-- Whether a finite exponent is an odd integer (`isOddInt` in
math.Pow). -/
def isOddInt (q : ℚ) : Bool := q.den = 1 && q.num % 2 ≠ 0

/-- Whether a float64 is an odd integer (`isOddInt` on an `RVal`). -/
def isOddIntR : RVal → Bool
  | RVal.fin q => isOddInt q
  | _ => false

/-- The generic finite-base, finite-exponent tail of `math.Pow`:
integer exponents compute exactly; a negative base with a non-integer
exponent is NaN; the remaining (irrational) values are delegated to the
abstract kernel, which also covers Go's `y == ±0.5` square-root
shortcuts. -/
def powFinFin (T : TransOps) : RVal → RVal → RVal
  | RVal.fin a, RVal.fin b =>
      if b.den = 1 then RVal.fin (a ^ b.num)
      else if a < 0 then RVal.nan
      else T.powFracF a b
  | _, _ => RVal.nan

/-- `math.Pow` on float64, following the special-case ladder of the Go
implementation (`y==0 || x==1`; `y==1`; NaN; `x==0`; `IsInf(y)`;
`IsInf(x)`; generic).  The model has a single zero, so the
`copysign`-signed zero/infinity results collapse to their unsigned
counterparts. -/
def rpow (T : TransOps) (x y : RVal) : RVal :=
  if y = RVal.fin 0 then RVal.fin 1
  else if x = RVal.fin 1 then RVal.fin 1
  else if y = RVal.fin 1 then x
  else if x.isNaN then RVal.nan
  else if y.isNaN then RVal.nan
  else if x = RVal.fin 0 then
    (if y.isPInf then RVal.fin 0
     else if y.isNInf then RVal.pinf
     else if RVal.flt y (RVal.fin 0) then RVal.pinf
     else RVal.fin 0)
  else if y.isPInf then
    (if x = RVal.fin (-1) then RVal.fin 1
     else if RVal.flt (RVal.fabs x) (RVal.fin 1) then RVal.fin 0
     else RVal.pinf)
  else if y.isNInf then
    (if x = RVal.fin (-1) then RVal.fin 1
     else if RVal.flt (RVal.fabs x) (RVal.fin 1) then RVal.pinf
     else RVal.fin 0)
  else if x.isPInf then
    (if RVal.flt y (RVal.fin 0) then RVal.fin 0 else RVal.pinf)
  else if x.isNInf then
    -- Pow(-Inf, y) = Pow(-0, -y)
    (if RVal.flt y (RVal.fin 0) then RVal.fin 0
     else if isOddIntR y then RVal.ninf
     else RVal.pinf)
  else powFinFin T x y

/-- `math.Max` (call sites guard NaN beforehand; infinities compare
normally). -/
def fmax (a b : RVal) : RVal := if RVal.flt a b then b else a

/-- `math.Min`. -/
def fmin (a b : RVal) : RVal := if RVal.flt b a then b else a

/-- The `median` helper: sort ascending, take the middle element, or
the mean of the two middle elements for even length.  Only called with
at least two elements. -/
def median (items : List RVal) : RVal :=
  let sorted := sortFloat64s items
  let middle := items.length / 2
  if items.length % 2 = 0 then
    RVal.div (RVal.add (sorted.getD (middle - 1) RVal.nan) (sorted.getD middle RVal.nan)) (RVal.fin 2)
  else sorted.getD middle RVal.nan

/-- The `mad` helper: median of absolute deviations from the median. -/
def mad (items : List RVal) : RVal :=
  let med := median items
  median (items.map (fun x => RVal.fabs (RVal.sub x med)))

/-- A failed `x.(float64)` type assertion (no comma-ok form) panics. -/
def getF : GoVal → Except Err RVal
  | GoVal.gf x => Except.ok x
  | v => Except.error (Err.panicked ("interface conversion: interface is " ++ v.typeName ++ ", not float64"))

/-- A failed `x.(string)` type assertion (no comma-ok form) panics. -/
def getS : GoVal → Except Err String
  | GoVal.gs s => Except.ok s
  | v => Except.error (Err.panicked ("interface conversion: interface is " ++ v.typeName ++ ", not string"))

/-- `e.scratch[e.scratchHead - 1 - i]`: the cell `i` positions below
the top of stack (the stack is the list with its head on top). -/
def cellAt (st : List Cell) (i : ℕ) : Cell := st.getD i ⟨GoVal.gs "", false⟩

/-- The float-window check: every value in the window (offset/length
measured from the top of stack) must dynamically be a float64
(comma-ok assertion on the value, ignoring the `isFloat` flags). -/
def floatCheckOK (st : List Cell) (t : ArityTuple) : Bool :=
  ((st.drop (t.floatOffset - t.floatCount)).take t.floatCount).all (fun c => c.v.isGf)

/-- One pass of the not-an-unresolved-operator loop over cells in
ascending scratch order: a cell whose `isFloat` flag is false is
asserted to be a string (panicking otherwise) and looked up in the
`arity` table; finding an operator name makes the fold impossible
(`cannotSimplify`). -/
def scanNonOperator : List Cell → Except Err Bool
  | [] => Except.ok false
  | c :: rest =>
      if c.isF then scanNonOperator rest
      else do
        let s ← getS c.v
        if (arity s).isSome then Except.ok true else scanNonOperator rest

/-- The cells of the non-operator check window in ascending scratch
order (Go iterates from the bottom of the window upward). -/
def nonOpCells (st : List Cell) (t : ArityTuple) : List Cell :=
  ((st.drop (t.nonOperatorOffset - t.nonOperatorCount)).take t.nonOperatorCount).reverse

/-- The windowed-operand scan shared by AVG/MEDIAN/MAD/SORT/STDEV/
PERCENT/SMIN/SMAX, in ascending scratch order: a cell with a false
`isFloat` flag stops the scan (`cannotSimplify`, returning `none`); a
flagged cell is asserted to be a float64 (panicking otherwise). -/
def scanFloats : List Cell → Except Err (Option (List RVal))
  | [] => Except.ok (some [])
  | c :: rest =>
      if !c.isF then Except.ok none
      else do
        let x ← getF c.v
        let r ← scanFloats rest
        Except.ok (r.map (fun xs => x :: xs))

/-- The repeated count-parameter validation: NaN, ±Inf, zero and
negative values are a hard syntax error. -/
def countCheckFull (tok : String) (x : RVal) : Option Err :=
  if x.isNaN || x.isPInf || x.isNInf || RVal.fle x (RVal.fin 0) then
    some (synErr (tok ++ " operator requires positive finite integer: " ++ fmtVal x))
  else none

/-- The weaker validation used for ROLL's `m` and PERCENT's count:
only NaN and ±Inf are rejected (the error text still claims a positive
integer is required). -/
def countCheckNoSign (tok : String) (x : RVal) : Option Err :=
  if x.isNaN || x.isPInf || x.isNInf then
    some (synErr (tok ++ " operator requires positive finite integer: " ++ fmtVal x))
  else none

/-- Go `int(x)` on a float64 count that passed validation (finite). -/
def toCount : RVal → ℤ
  | RVal.fin q => RVal.qtrunc q
  | _ => 0

/-- The "operand requires N items, but only M on stack" error. -/
def notEnoughItems (tok : String) (n m : ℤ) : Err :=
  synErr (tok ++ " operand requires " ++ toString n ++ " items, but only " ++ toString m ++ " on stack")

/-- Outcome of one operator body: an ordinary single result (with the
extra pop count for windowed aggregates), a deferred fold
(`cannotSimplify`), or a directly rearranged stack (`stackUpdated`). -/
inductive OpOut : Type
  | res : GoVal → ℕ → OpOut
  | deferOp : OpOut
  | newStack : List Cell → OpOut

/-- The result ladder of the `GE` case on two float64 operands: NaN if
either operand is NaN (the preserved historical quirk), else the 0/1
comparison result. -/
def relResGE (a b : RVal) : RVal :=
  if a.isNaN then RVal.nan else if b.isNaN then RVal.nan
  else if RVal.fge a b then RVal.fin 1 else RVal.fin 0

/-- The `GT` result ladder on two float64 operands. -/
def relResGT (a b : RVal) : RVal :=
  if a.isNaN then RVal.nan else if b.isNaN then RVal.nan
  else if RVal.fgt a b then RVal.fin 1 else RVal.fin 0

/-- The `LE` result ladder on two float64 operands. -/
def relResLE (a b : RVal) : RVal :=
  if a.isNaN then RVal.nan else if b.isNaN then RVal.nan
  else if RVal.fle a b then RVal.fin 1 else RVal.fin 0

/-- The `LT` result ladder on two float64 operands. -/
def relResLT (a b : RVal) : RVal :=
  if a.isNaN then RVal.nan else if b.isNaN then RVal.nan
  else if RVal.flt a b then RVal.fin 1 else RVal.fin 0

/-- The `EQ` result on two float64 operands: plain float equality. -/
def relResEQ (a b : RVal) : RVal :=
  if RVal.feq a b then RVal.fin 1 else RVal.fin 0

/-- The `NE` result on two float64 operands: plain float inequality. -/
def relResNE (a b : RVal) : RVal :=
  if RVal.feq a b then RVal.fin 0 else RVal.fin 1

/-- The shared count-parameter handling of the windowed operators:
assert the top of stack to be a float64, validate it as a positive
finite count, convert with `int(...)` truncation, and require no more
items than are below it on the stack. -/
def takeCount (tok : String) (st : List Cell) : Except Err ℤ := do
  let x ← getF (cellAt st 0).v
  match countCheckFull tok x with
  | some e => Except.error e
  | none =>
      let n := toCount x
      if n > (st.length : ℤ) - 1 then Except.error (notEnoughItems tok n ((st.length : ℤ) - 1))
      else Except.ok n

/-- The count window: the `n` cells below the count parameter, top of
stack first. -/
def countWindow (st : List Cell) (n : ℤ) : List Cell := (st.drop 1).take n.toNat

/-- The `AVG` arm of the operator switch (see `opBody`). -/
def opAVG (T : TransOps) (bnds : Bindings) (spi : ℚ) (st : List Cell) (ob : OpenB) :
    Except Err (OpOut × OpenB) := do
      let n ← takeCount "AVG" st
      let scan ← scanFloats (countWindow st n).reverse
      match scan with
      | none => Except.ok (OpOut.deferOp, ob)
      | some items =>
          let nonNaN := items.filter (fun x => !x.isNaN)
          let total := nonNaN.foldl RVal.add (RVal.fin 0)
          let used := nonNaN.length
          Except.ok (OpOut.res (GoVal.gf (RVal.div total (RVal.fin used))) n.toNat, ob)

/-- The `MAD` arm of the operator switch (see `opBody`). -/
def opMAD (T : TransOps) (bnds : Bindings) (spi : ℚ) (st : List Cell) (ob : OpenB) :
    Except Err (OpOut × OpenB) := do
      let n ← takeCount "MAD" st
      if n = 1 then Except.ok (OpOut.res (cellAt st 1).v 1, ob)
      else do
        let scan ← scanFloats (countWindow st n).reverse
        match scan with
        | none => Except.ok (OpOut.deferOp, ob)
        | some items => Except.ok (OpOut.res (GoVal.gf (mad items)) n.toNat, ob)

/-- The `MEDIAN` arm of the operator switch (see `opBody`). -/
def opMEDIAN (T : TransOps) (bnds : Bindings) (spi : ℚ) (st : List Cell) (ob : OpenB) :
    Except Err (OpOut × OpenB) := do
      let n ← takeCount "MEDIAN" st
      if n = 1 then Except.ok (OpOut.res (cellAt st 1).v 1, ob)
      else do
        let scan ← scanFloats (countWindow st n).reverse
        match scan with
        | none => Except.ok (OpOut.deferOp, ob)
        | some items => Except.ok (OpOut.res (GoVal.gf (median items)) n.toNat, ob)

/-- The `PERCENT` arm of the operator switch (see `opBody`). -/
def opPERCENT (T : TransOps) (bnds : Bindings) (spi : ℚ) (st : List Cell) (ob : OpenB) :
    Except Err (OpOut × OpenB) := do
      let pv ← getF (cellAt st 1).v
      match countCheckFull "PERCENT" pv with
      | some e => Except.error e
      | none => do
          let cv ← getF (cellAt st 0).v
          match countCheckNoSign "PERCENT" cv with
          | some e => Except.error e
          | none =>
              let n := toCount cv
              if n > (st.length : ℤ) - 2 then
                Except.error (notEnoughItems "PERCENT" n ((st.length : ℤ) - 2))
              else do
                let scan ← scanFloats ((st.drop 2).take n.toNat).reverse
                match scan with
                | none => Except.ok (OpOut.deferOp, ob)
                | some items =>
                    let sorted := sortFloat64s items
                    let pq := match pv with | RVal.fin q => q | _ => 0
                    let idx : ℤ := RVal.qceil (pq / 100 * (items.length : ℚ)) - 1
                    if idx < 0 || (sorted.length : ℤ) ≤ idx then
                      Except.error (Err.panicked "index out of range")
                    else Except.ok (OpOut.res (GoVal.gf (sorted.getD idx.toNat RVal.nan)) n.toNat, ob)

/-- The `SMAX` arm of the operator switch (see `opBody`). -/
def opSMAX (T : TransOps) (bnds : Bindings) (spi : ℚ) (st : List Cell) (ob : OpenB) :
    Except Err (OpOut × OpenB) := do
      let n ← takeCount "SMAX" st
      if n = 1 then Except.ok (OpOut.res (cellAt st 1).v 1, ob)
      else
        match (cellAt st 1).v with
        | GoVal.gf minit => do
            let scan ← scanFloats (((st.drop 2).take (n.toNat - 1)).reverse)
            match scan with
            | none => Except.ok (OpOut.deferOp, ob)
            | some vals =>
                let mx := vals.foldl (fun mx it => if RVal.fgt it mx then it else mx) minit
                Except.ok (OpOut.res (GoVal.gf mx) n.toNat, ob)
        | _ => Except.ok (OpOut.deferOp, ob)

/-- The `SMIN` arm of the operator switch (see `opBody`). -/
def opSMIN (T : TransOps) (bnds : Bindings) (spi : ℚ) (st : List Cell) (ob : OpenB) :
    Except Err (OpOut × OpenB) := do
      let n ← takeCount "SMIN" st
      if n = 1 then Except.ok (OpOut.res (cellAt st 1).v 1, ob)
      else
        match (cellAt st 1).v with
        | GoVal.gf minit => do
            let scan ← scanFloats (((st.drop 2).take (n.toNat - 1)).reverse)
            match scan with
            | none => Except.ok (OpOut.deferOp, ob)
            | some vals =>
                let mn := vals.foldl (fun mn it => if RVal.flt it mn then it else mn) minit
                Except.ok (OpOut.res (GoVal.gf mn) n.toNat, ob)
        | _ => Except.ok (OpOut.deferOp, ob)

/-- The `STDEV` arm of the operator switch (see `opBody`). -/
def opSTDEV (T : TransOps) (bnds : Bindings) (spi : ℚ) (st : List Cell) (ob : OpenB) :
    Except Err (OpOut × OpenB) := do
      let n ← takeCount "STDEV" st
      let scan ← scanFloats (countWindow st n).reverse
      match scan with
      | none => Except.ok (OpOut.deferOp, ob)
      | some items =>
          let nonNaN := items.filter (fun x => !x.isNaN)
          let total := nonNaN.foldl RVal.add (RVal.fin 0)
          let used : ℚ := nonNaN.length
          let mean := RVal.div total (RVal.fin used)
          let total2 := nonNaN.foldl
            (fun acc x => RVal.add acc (RVal.mul (RVal.sub x mean) (RVal.sub x mean))) (RVal.fin 0)
          Except.ok (OpOut.res (GoVal.gf (T.sqrtF (RVal.div total2 (RVal.fin used)))) n.toNat, ob)
/-- One operator body from the `simplify` switch.  `st` is the stack
(head = top), already known to hold at least `popCount` items; the
float-window and non-operator-window prechecks have already passed.
Returns the outcome plus the (possibly updated, for TREND/TRENDNAN)
open-bindings map. -/
def opBody (T : TransOps) (bnds : Bindings) (spi : ℚ) (tok : String) (st : List Cell)
    (ob : OpenB) : Except Err (OpOut × OpenB) :=
  match tok with
  | "+" =>
      let ca := cellAt st 1
      let cb := cellAt st 0
      if ca.isF then
        if cb.isF then do
          let a ← getF ca.v
          let b ← getF cb.v
          Except.ok (OpOut.res (GoVal.gf (RVal.add a b)) 0, ob)
        else do
          let a ← getF ca.v
          if RVal.feq a (RVal.fin 0) then Except.ok (OpOut.res cb.v 0, ob)
          else Except.ok (OpOut.deferOp, ob)
      else if cb.isF then do
        let b ← getF cb.v
        if RVal.feq b (RVal.fin 0) then Except.ok (OpOut.res ca.v 0, ob)
        else Except.ok (OpOut.deferOp, ob)
      else Except.ok (OpOut.deferOp, ob)
  | "-" =>
      let ca := cellAt st 1
      let cb := cellAt st 0
      if ca.isF then
        if cb.isF then do
          let a ← getF ca.v
          let b ← getF cb.v
          Except.ok (OpOut.res (GoVal.gf (RVal.sub a b)) 0, ob)
        else Except.ok (OpOut.deferOp, ob)
      else if cb.isF then do
        let b ← getF cb.v
        if RVal.feq b (RVal.fin 0) then Except.ok (OpOut.res ca.v 0, ob)
        else Except.ok (OpOut.deferOp, ob)
      else Except.ok (OpOut.deferOp, ob)
  | "*" =>
      let ca := cellAt st 1
      let cb := cellAt st 0
      if ca.isF then
        if cb.isF then do
          let a ← getF ca.v
          let b ← getF cb.v
          Except.ok (OpOut.res (GoVal.gf (RVal.mul a b)) 0, ob)
        else do
          let a ← getF ca.v
          -- the source assigns the untyped constant 0 here, which Go
          -- materialises as an int, not a float64
          if RVal.feq a (RVal.fin 0) then Except.ok (OpOut.res (GoVal.gi 0) 0, ob)
          else if RVal.feq a (RVal.fin 1) then Except.ok (OpOut.res cb.v 0, ob)
          else Except.ok (OpOut.deferOp, ob)
      else if cb.isF then do
        let b ← getF cb.v
        if RVal.feq b (RVal.fin 0) then Except.ok (OpOut.res (GoVal.gi 0) 0, ob)
        else if RVal.feq b (RVal.fin 1) then Except.ok (OpOut.res ca.v 0, ob)
        else Except.ok (OpOut.deferOp, ob)
      else Except.ok (OpOut.deferOp, ob)
  | "/" =>
      let ca := cellAt st 1
      let cb := cellAt st 0
      if ca.isF then
        if cb.isF then do
          let a ← getF ca.v
          let b ← getF cb.v
          Except.ok (OpOut.res (GoVal.gf (RVal.div a b)) 0, ob)
        else do
          let a ← getF ca.v
          if RVal.feq a (RVal.fin 0) then Except.ok (OpOut.res (GoVal.gf (RVal.fin 0)) 0, ob)
          else Except.ok (OpOut.deferOp, ob)
      else if cb.isF then do
        let b ← getF cb.v
        if RVal.feq b (RVal.fin 0) then Except.ok (OpOut.res (GoVal.gf RVal.nan) 0, ob)
        else if RVal.feq b (RVal.fin 1) then Except.ok (OpOut.res ca.v 0, ob)
        else Except.ok (OpOut.deferOp, ob)
      else Except.ok (OpOut.deferOp, ob)
  | "%" =>
      let ca := cellAt st 1
      let cb := cellAt st 0
      if ca.isF then
        if cb.isF then do
          let a ← getF ca.v
          let b ← getF cb.v
          Except.ok (OpOut.res (GoVal.gf (RVal.fmod a b)) 0, ob)
        else Except.ok (OpOut.deferOp, ob)
      else if cb.isF then do
        let b ← getF cb.v
        if RVal.feq b (RVal.fin 0) then Except.ok (OpOut.res (GoVal.gf RVal.nan) 0, ob)
        else if RVal.feq b (RVal.fin 1) then Except.ok (OpOut.res (GoVal.gf (RVal.fin 0)) 0, ob)
        else Except.ok (OpOut.deferOp, ob)
      else Except.ok (OpOut.deferOp, ob)
  | "ABS" => do
      let x ← getF (cellAt st 0).v
      Except.ok (OpOut.res (GoVal.gf (RVal.fabs x)) 0, ob)
  | "ADDNAN" => do
      let ca := cellAt st 1
      let cb := cellAt st 0
      let a ← getF ca.v
      let b ← getF cb.v
      if !a.isNaN && !b.isNaN then Except.ok (OpOut.res (GoVal.gf (RVal.add a b)) 0, ob)
      else if !a.isNaN then Except.ok (OpOut.res ca.v 0, ob)
      else Except.ok (OpOut.res cb.v 0, ob)
  | "ATAN" => do
      let x ← getF (cellAt st 0).v
      Except.ok (OpOut.res (GoVal.gf (T.atanF x)) 0, ob)
  | "ATAN2" => do
      let b ← getF (cellAt st 0).v
      let a ← getF (cellAt st 1).v
      Except.ok (OpOut.res (GoVal.gf (T.atan2F b a)) 0, ob)
  | "AVG" => opAVG T bnds spi st ob
  | "CEIL" => do
      let x ← getF (cellAt st 0).v
      Except.ok (OpOut.res (GoVal.gf (RVal.fceil x)) 0, ob)
  | "COPY" => do
      let n ← takeCount "COPY" st
      let w := countWindow st n
      let bad ← scanNonOperator w.reverse
      if bad then Except.ok (OpOut.deferOp, ob)
      else Except.ok (OpOut.newStack (w ++ st.drop 1), ob)
  | "COS" => do
      let x ← getF (cellAt st 0).v
      Except.ok (OpOut.res (GoVal.gf (T.cosF x)) 0, ob)
  | "DEG2RAD" => do
      let x ← getF (cellAt st 0).v
      Except.ok (OpOut.res (GoVal.gf (T.deg2radF x)) 0, ob)
  | "DEPTH" =>
      Except.ok (OpOut.newStack (⟨GoVal.gi st.length, true⟩ :: st), ob)
  | "DUP" =>
      Except.ok (OpOut.newStack (cellAt st 0 :: st), ob)
  | "EQ" =>
      let ca := cellAt st 1
      let cb := cellAt st 0
      if ca.isF && cb.isF then do
        let a ← getF ca.v
        let b ← getF cb.v
        Except.ok (OpOut.res (GoVal.gf (relResEQ a b)) 0, ob)
      else if !ca.isF && !cb.isF then do
        let sa ← getS ca.v
        let sb ← getS cb.v
        if sa = sb then Except.ok (OpOut.res (GoVal.gf (RVal.fin 1)) 0, ob)
        else Except.ok (OpOut.deferOp, ob)
      else Except.ok (OpOut.deferOp, ob)
  | "EXC" =>
      Except.ok (OpOut.newStack (cellAt st 1 :: cellAt st 0 :: st.drop 2), ob)
  | "EXP" => do
      let x ← getF (cellAt st 0).v
      Except.ok (OpOut.res (GoVal.gf (T.expF x)) 0, ob)
  | "FLOOR" => do
      let x ← getF (cellAt st 0).v
      Except.ok (OpOut.res (GoVal.gf (RVal.ffloor x)) 0, ob)
  | "GE" =>
      let ca := cellAt st 1
      let cb := cellAt st 0
      if ca.isF && cb.isF then do
        let a ← getF ca.v
        let b ← getF cb.v
        Except.ok (OpOut.res (GoVal.gf (relResGE a b)) 0, ob)
      else if !ca.isF && !cb.isF then do
        let sa ← getS ca.v
        let sb ← getS cb.v
        if sa = sb then Except.ok (OpOut.res (GoVal.gf (RVal.fin 1)) 0, ob)
        else Except.ok (OpOut.deferOp, ob)
      else Except.ok (OpOut.deferOp, ob)
  | "GT" =>
      let ca := cellAt st 1
      let cb := cellAt st 0
      if ca.isF && cb.isF then do
        let a ← getF ca.v
        let b ← getF cb.v
        Except.ok (OpOut.res (GoVal.gf (relResGT a b)) 0, ob)
      else if !ca.isF && !cb.isF then do
        let sa ← getS ca.v
        let sb ← getS cb.v
        if sa = sb then Except.ok (OpOut.res (GoVal.gf (RVal.fin 0)) 0, ob)
        else Except.ok (OpOut.deferOp, ob)
      else Except.ok (OpOut.deferOp, ob)
  | "IF" =>
      let ca := cellAt st 2
      if ca.isF then do
        let a ← getF ca.v
        if RVal.flt a (RVal.fin 0) || RVal.fgt a (RVal.fin 0) then
          Except.ok (OpOut.res (cellAt st 1).v 0, ob)
        else Except.ok (OpOut.res (cellAt st 0).v 0, ob)
      else Except.ok (OpOut.deferOp, ob)
  | "INDEX" => do
      let n ← takeCount "INDEX" st
      let w := countWindow st n
      let bad ← scanNonOperator w.reverse
      if bad then Except.ok (OpOut.deferOp, ob)
      else Except.ok (OpOut.newStack (cellAt st n.toNat :: st.drop 1), ob)
  | "ISINF" => do
      let x ← getF (cellAt st 0).v
      Except.ok (OpOut.res (GoVal.gf (if x.isPInf || x.isNInf then RVal.fin 1 else RVal.fin 0)) 0, ob)
  | "LE" =>
      let ca := cellAt st 1
      let cb := cellAt st 0
      if ca.isF && cb.isF then do
        let a ← getF ca.v
        let b ← getF cb.v
        Except.ok (OpOut.res (GoVal.gf (relResLE a b)) 0, ob)
      else if !ca.isF && !cb.isF then do
        let sa ← getS ca.v
        let sb ← getS cb.v
        if sa = sb then Except.ok (OpOut.res (GoVal.gf (RVal.fin 1)) 0, ob)
        else Except.ok (OpOut.deferOp, ob)
      else Except.ok (OpOut.deferOp, ob)
  | "LIMIT" => do
      let a ← getF (cellAt st 2).v
      let lo ← getF (cellAt st 1).v
      let hi ← getF (cellAt st 0).v
      if a.isNaN || lo.isNaN || hi.isNaN then Except.ok (OpOut.res (GoVal.gf RVal.nan) 0, ob)
      else if a.isNInf || lo.isNInf || hi.isNInf then Except.ok (OpOut.res (GoVal.gf RVal.nan) 0, ob)
      else if !(RVal.flt a lo || RVal.fgt a hi) then Except.ok (OpOut.res (cellAt st 2).v 0, ob)
      else Except.ok (OpOut.res (GoVal.gf RVal.nan) 0, ob)
  | "LOG" => do
      let x ← getF (cellAt st 0).v
      Except.ok (OpOut.res (GoVal.gf (T.logF x)) 0, ob)
  | "LT" =>
      let ca := cellAt st 1
      let cb := cellAt st 0
      if ca.isF && cb.isF then do
        let a ← getF ca.v
        let b ← getF cb.v
        Except.ok (OpOut.res (GoVal.gf (relResLT a b)) 0, ob)
      else if !ca.isF && !cb.isF then do
        let sa ← getS ca.v
        let sb ← getS cb.v
        if sa = sb then Except.ok (OpOut.res (GoVal.gf (RVal.fin 0)) 0, ob)
        else Except.ok (OpOut.deferOp, ob)
      else Except.ok (OpOut.deferOp, ob)
  | "MAD" => opMAD T bnds spi st ob
  | "MAX" =>
      let ca := cellAt st 1
      let cb := cellAt st 0
      if ca.isF && cb.isF then do
        let a ← getF ca.v
        let b ← getF cb.v
        if a.isNaN then Except.ok (OpOut.res ca.v 0, ob)
        else if b.isNaN then Except.ok (OpOut.res cb.v 0, ob)
        else Except.ok (OpOut.res (GoVal.gf (fmax b a)) 0, ob)
      else if !ca.isF && !cb.isF then do
        let sa ← getS ca.v
        let sb ← getS cb.v
        if sa = sb then Except.ok (OpOut.res ca.v 0, ob)
        else Except.ok (OpOut.deferOp, ob)
      else do
        let aNaN ← if ca.isF then do
            let a ← getF ca.v
            pure a.isNaN
          else pure false
        if aNaN then Except.ok (OpOut.res ca.v 0, ob)
        else do
          let bNaN ← if cb.isF then do
              let b ← getF cb.v
              pure b.isNaN
            else pure false
          if bNaN then Except.ok (OpOut.res cb.v 0, ob)
          else Except.ok (OpOut.deferOp, ob)
  | "MAXNAN" =>
      let ca := cellAt st 1
      let cb := cellAt st 0
      if ca.isF && cb.isF then do
        let a ← getF ca.v
        let b ← getF cb.v
        if a.isNaN then Except.ok (OpOut.res cb.v 0, ob)
        else if b.isNaN then Except.ok (OpOut.res ca.v 0, ob)
        else Except.ok (OpOut.res (GoVal.gf (fmax b a)) 0, ob)
      else if !ca.isF && !cb.isF then do
        let sa ← getS ca.v
        let sb ← getS cb.v
        if sa = sb then Except.ok (OpOut.res ca.v 0, ob)
        else Except.ok (OpOut.deferOp, ob)
      else do
        let aNaN ← if ca.isF then do
            let a ← getF ca.v
            pure a.isNaN
          else pure false
        if aNaN then Except.ok (OpOut.res cb.v 0, ob)
        else do
          let bNaN ← if cb.isF then do
              let b ← getF cb.v
              pure b.isNaN
            else pure false
          if bNaN then Except.ok (OpOut.res ca.v 0, ob)
          else Except.ok (OpOut.deferOp, ob)
  | "MEDIAN" => opMEDIAN T bnds spi st ob
  | "MIN" =>
      let ca := cellAt st 1
      let cb := cellAt st 0
      if ca.isF && cb.isF then do
        let a ← getF ca.v
        let b ← getF cb.v
        if a.isNaN then Except.ok (OpOut.res ca.v 0, ob)
        else if b.isNaN then Except.ok (OpOut.res cb.v 0, ob)
        else Except.ok (OpOut.res (GoVal.gf (fmin b a)) 0, ob)
      else if !ca.isF && !cb.isF then do
        let sa ← getS ca.v
        let sb ← getS cb.v
        if sa = sb then Except.ok (OpOut.res ca.v 0, ob)
        else Except.ok (OpOut.deferOp, ob)
      else do
        let aNaN ← if ca.isF then do
            let a ← getF ca.v
            pure a.isNaN
          else pure false
        if aNaN then Except.ok (OpOut.res ca.v 0, ob)
        else do
          let bNaN ← if cb.isF then do
              let b ← getF cb.v
              pure b.isNaN
            else pure false
          if bNaN then Except.ok (OpOut.res cb.v 0, ob)
          else Except.ok (OpOut.deferOp, ob)
  | "MINNAN" =>
      let ca := cellAt st 1
      let cb := cellAt st 0
      if ca.isF && cb.isF then do
        let a ← getF ca.v
        let b ← getF cb.v
        if a.isNaN then Except.ok (OpOut.res cb.v 0, ob)
        else if b.isNaN then Except.ok (OpOut.res ca.v 0, ob)
        else Except.ok (OpOut.res (GoVal.gf (fmin b a)) 0, ob)
      else if !ca.isF && !cb.isF then do
        let sa ← getS ca.v
        let sb ← getS cb.v
        if sa = sb then Except.ok (OpOut.res ca.v 0, ob)
        else Except.ok (OpOut.deferOp, ob)
      else do
        let aNaN ← if ca.isF then do
            let a ← getF ca.v
            pure a.isNaN
          else pure false
        if aNaN then Except.ok (OpOut.res cb.v 0, ob)
        else do
          let bNaN ← if cb.isF then do
              let b ← getF cb.v
              pure b.isNaN
            else pure false
          if bNaN then Except.ok (OpOut.res ca.v 0, ob)
          else Except.ok (OpOut.deferOp, ob)
  | "NE" =>
      let ca := cellAt st 1
      let cb := cellAt st 0
      if ca.isF && cb.isF then do
        let a ← getF ca.v
        let b ← getF cb.v
        Except.ok (OpOut.res (GoVal.gf (relResNE a b)) 0, ob)
      else if !ca.isF && !cb.isF then do
        let sa ← getS ca.v
        let sb ← getS cb.v
        if sa = sb then Except.ok (OpOut.res (GoVal.gf (RVal.fin 0)) 0, ob)
        else Except.ok (OpOut.deferOp, ob)
      else Except.ok (OpOut.deferOp, ob)
  | "PERCENT" => opPERCENT T bnds spi st ob
  | "POP" =>
      Except.ok (OpOut.newStack (st.drop 1), ob)
  | "POW" =>
      let ca := cellAt st 1
      let cb := cellAt st 0
      if ca.isF then
        if cb.isF then do
          let a ← getF ca.v
          let b ← getF cb.v
          Except.ok (OpOut.res (GoVal.gf (rpow T a b)) 0, ob)
        else do
          let a ← getF ca.v
          if RVal.feq a (RVal.fin 0) then Except.ok (OpOut.res (GoVal.gf (RVal.fin 0)) 0, ob)
          else if RVal.feq a (RVal.fin 1) then Except.ok (OpOut.res (GoVal.gf (RVal.fin 1)) 0, ob)
          else Except.ok (OpOut.deferOp, ob)
      else if cb.isF then do
        let b ← getF cb.v
        if RVal.feq b (RVal.fin 0) then Except.ok (OpOut.res (GoVal.gf (RVal.fin 1)) 0, ob)
        else if RVal.feq b (RVal.fin 1) then Except.ok (OpOut.res ca.v 0, ob)
        else Except.ok (OpOut.deferOp, ob)
      else Except.ok (OpOut.deferOp, ob)
  | "RAD2DEG" => do
      let x ← getF (cellAt st 0).v
      Except.ok (OpOut.res (GoVal.gf (T.rad2degF x)) 0, ob)
  | "REV" => do
      let n ← takeCount "REV" st
      let w := countWindow st n
      let bad ← scanNonOperator w.reverse
      if bad then Except.ok (OpOut.deferOp, ob)
      else
        -- the moved cells get their isFloat flags recomputed from the
        -- moved values (`_, isFloat = items[itemIdx].(float64)`)
        Except.ok (OpOut.newStack ((w.map (fun c => (⟨c.v, c.v.isGf⟩ : Cell))).reverse ++ st.drop (1 + n.toNat)), ob)
  | "ROLL" => do
      let xn ← getF (cellAt st 1).v
      match countCheckFull "ROLL" xn with
      | some e => Except.error e
      | none =>
          let n := toCount xn
          if n > (st.length : ℤ) - 1 then Except.error (notEnoughItems "ROLL" n ((st.length : ℤ) - 1))
          else do
            let xm ← getF (cellAt st 0).v
            match countCheckNoSign "ROLL" xm with
            | some e => Except.error e
            | none =>
                let m := toCount xm
                if m > (st.length : ℤ) - 1 then Except.error (notEnoughItems "ROLL" m ((st.length : ℤ) - 1))
                else if (st.length : ℤ) - 2 < n then
                  -- the window scan reads e.isFloat[-1]
                  Except.error (Err.panicked "index out of range")
                else do
                  let w := (st.drop 2).take n.toNat
                  let bad ← scanNonOperator w.reverse
                  if bad then Except.ok (OpOut.deferOp, ob)
                  else
                    let wb := w.reverse
                    let items := wb ++ wb ++ wb
                    let first : ℤ := (items.length : ℤ) / 3 - m
                    let lastI : ℤ := first + n
                    if first < 0 || (items.length : ℤ) < lastI then
                      Except.error (Err.panicked "slice bounds out of range")
                    else
                      -- values rotate; the isFloat flags are not updated
                      let newb := (items.drop first.toNat).take n.toNat
                      let cells := (newb.zip (wb.map Cell.isF)).map
                        (fun p => (⟨p.1.v, p.2⟩ : Cell))
                      Except.ok (OpOut.newStack (cells.reverse ++ st.drop (2 + n.toNat)), ob)
  | "SIN" => do
      let x ← getF (cellAt st 0).v
      Except.ok (OpOut.res (GoVal.gf (T.sinF x)) 0, ob)
  | "SMAX" => opSMAX T bnds spi st ob
  | "SMIN" => opSMIN T bnds spi st ob
  | "SORT" => do
      let n ← takeCount "SORT" st
      let scan ← scanFloats (countWindow st n).reverse
      match scan with
      | none => Except.ok (OpOut.deferOp, ob)
      | some items =>
          let sorted := sortFloat64s items
          Except.ok (OpOut.newStack ((sorted.reverse.map fcell) ++ st.drop (1 + n.toNat)), ob)
  | "SQRT" => do
      let x ← getF (cellAt st 0).v
      Except.ok (OpOut.res (GoVal.gf (T.sqrtF x)) 0, ob)
  | "STDEV" => opSTDEV T bnds spi st ob
  | "TREND" => do
      let v ← getF (cellAt st 0).v
      if v.isNaN || RVal.fle v (RVal.fin 0) || v.isPInf then
        Except.error (synErr ("TREND operator requires positive finite integer: " ++ fmtVal v))
      else
        let n : ℤ := match RVal.fceil (RVal.div v (RVal.fin spi)) with
          | RVal.fin q => RVal.qtrunc q
          | _ => 0
        match (cellAt st 1).v with
        | GoVal.gs label =>
            (match blookup bnds label with
             | none => Except.ok (OpOut.deferOp, ob)
             | some (BVal.series s) =>
                 if n > (s.length : ℤ) then
                   Except.error (synErr ("TREND operand specifies " ++ toString n ++
                     " values, but only " ++ toString s.length ++ " available"))
                 else
                   let wnd := s.drop (s.length - n.toNat)
                   let total := wnd.foldl RVal.add (RVal.fin 0)
                   Except.ok (OpOut.newStack
                     (fcell (RVal.div total (RVal.fin (wnd.length : ℚ))) :: st.drop 2),
                     obAdd ob label (-1))
             | some (BVal.scalar _) =>
                 Except.error (synErr ("TREND operand specifies \"" ++ label ++
                   "\" label, which is not a series of numbers: []float64")))
        | other =>
            Except.error (synErr ("TREND operator requires label but found " ++
              other.typeName ++ ": " ++ renderTok other))
  | "TRENDNAN" => do
      let v ← getF (cellAt st 0).v
      if v.isNaN || RVal.fle v (RVal.fin 0) || v.isPInf then
        Except.error (synErr ("TRENDNAN operator requires positive finite integer: " ++ fmtVal v))
      else
        let n : ℤ := match RVal.fceil (RVal.div v (RVal.fin spi)) with
          | RVal.fin q => RVal.qtrunc q
          | _ => 0
        match (cellAt st 1).v with
        | GoVal.gs label =>
            (match blookup bnds label with
             | none => Except.ok (OpOut.deferOp, ob)
             | some (BVal.series s) =>
                 if n > (s.length : ℤ) then
                   Except.error (synErr ("TRENDNAN operand specifies " ++ toString n ++
                     " values, but only " ++ toString s.length ++ " available"))
                 else
                   let wnd := (s.drop (s.length - n.toNat)).filter (fun x => !x.isNaN)
                   let total := wnd.foldl RVal.add (RVal.fin 0)
                   Except.ok (OpOut.newStack
                     (fcell (RVal.div total (RVal.fin (wnd.length : ℚ))) :: st.drop 2),
                     obAdd ob label (-1))
             | some (BVal.scalar _) =>
                 Except.error (synErr ("TRENDNAN operand specifies \"" ++ label ++
                   "\" label, which is not a series of numbers: []float64")))
        | other =>
            Except.error (synErr ("TRENDNAN operator requires label but found " ++
              other.typeName ++ ": " ++ renderTok other))
  | "UN" => do
      let x ← getF (cellAt st 0).v
      Except.ok (OpOut.res (GoVal.gf (if x.isNaN then RVal.fin 1 else RVal.fin 0)) 0, ob)
  | _ => Except.error (Err.panicked "operator missing from switch")

/-- Processing of one operator token: the arity (stack-depth) check,
the float-window and non-operator-window classification, the operator
body, and the epilogue that pushes the deferred operator symbol or the
single result. -/
def applyOp (T : TransOps) (bnds : Bindings) (spi : ℚ) (tok : String) (t : ArityTuple)
    (st : List Cell) (ob : OpenB) : Except Err (List Cell × OpenB) :=
  if st.length < t.popCount then
    Except.error (synErr ("not enough parameters: operator " ++ tok ++ " requires " ++
      toString t.popCount ++ " operands"))
  else do
    let floatOK := floatCheckOK st t
    let nonOpBad ← scanNonOperator (nonOpCells st t)
    if !floatOK || nonOpBad then
      Except.ok (scell tok :: st, ob)
    else do
      let (out, ob₂) ← opBody T bnds spi tok st ob
      match out with
      | OpOut.deferOp => Except.ok (scell tok :: st, ob₂)
      | OpOut.res r extra => Except.ok ((⟨r, r.isGf⟩ : Cell) :: st.drop (t.popCount + extra), ob₂)
      | OpOut.newStack st₂ => Except.ok (st₂, ob₂)


/-- The numeric value of a list of decimal digit characters. -/
def digitsVal (l : List Char) : ℕ := l.foldl (fun a c => a * 10 + (c.toNat - 48)) 0

/-- The mantissa grammar of `strconv.ParseFloat`: digits, optionally
with a decimal point, at least one digit present. -/
def parseMantissa (cs : List Char) : Option ℚ :=
  let ip := cs.takeWhile Char.isDigit
  let rest := cs.drop ip.length
  match rest with
  | [] => if ip.isEmpty then none else some ((digitsVal ip : ℚ))
  | '.' :: r2 =>
      let fp := r2.takeWhile Char.isDigit
      if (r2.drop fp.length).isEmpty then
        if ip.isEmpty && fp.isEmpty then none
        else some ((digitsVal ip : ℚ) + (digitsVal fp : ℚ) / (10 : ℚ) ^ fp.length)
      else none
  | _ => none

/-- The exponent part after `e`/`E`: optional sign and digits. -/
def parseExpPart (cs : List Char) : Option ℤ :=
  let sgn : ℤ := match cs with
    | '-' :: _ => -1
    | _ => 1
  let digs := match cs with
    | '+' :: r => r
    | '-' :: r => r
    | r => r
  if !digs.isEmpty && digs.all Char.isDigit then some (sgn * (digitsVal digs : ℤ)) else none

/-- `strconv.ParseFloat(token, 64)`: special names (`NaN`, signed
`Inf`/`Infinity`, case-insensitive) and decimal/scientific notation.
(Go additionally accepts hexadecimal floats and digit-group
underscores; no program under consideration uses them.) -/
def parseNum (s : String) : Option RVal :=
  let cs := s.toList
  if cs.map Char.toLower = "nan".toList then some RVal.nan
  else
    let neg := match cs with
      | '-' :: _ => true
      | _ => false
    let body := match cs with
      | '+' :: r => r
      | '-' :: r => r
      | r => r
    let lower := body.map Char.toLower
    if lower = "inf".toList || lower = "infinity".toList then
      some (if neg then RVal.ninf else RVal.pinf)
    else
      let mant := body.takeWhile (fun c => c ≠ 'e' && c ≠ 'E')
      let rest := body.drop mant.length
      match rest with
      | [] => (parseMantissa mant).map (fun q => RVal.fin (if neg then -q else q))
      | _ :: ep =>
          match parseMantissa mant, parseExpPart ep with
          | some q, some ex =>
              some (RVal.fin ((if neg then -q else q) * (10 : ℚ) ^ ex))
          | _, _ => none

/-- The `isFirstOfDay` helper: whether the (local-time) instant falls
inside the first sampling interval of its day; Go integer division
truncates toward zero (`Int.tdiv`). -/
def isFirstOfDay (jSeconds spi : ℚ) : ℚ :=
  let js : ℤ := RVal.qtrunc jSeconds
  let tLeft := (js.tdiv 86400) * 86400
  let tRight := tLeft + RVal.qtrunc spi
  if js < tLeft || js > tRight then 0 else 1

/-- The per-pass context of `simplify`: kernels, coerced bindings,
configuration, the memoized `time.Now()` reading, and the state derived
from a bound `TIME` value. -/
structure SimCtx : Type where
  T : TransOps
  bnds : Bindings
  spi : ℚ
  perfTime : Bool
  nowSeconds : ℚ
  isTimeSet : Bool
  zTime : RVal
  zInt : ℤ
  jSec : ℚ

/-- Processing of a single token of the stored program (the body of the
`for ... range e.tokens` loop).  `pos` is the zero-based token index,
used by the unexpected-token error. -/
def stepTok (ctx : SimCtx) (tok : GoVal) (st : List Cell) (ob : OpenB) (pos : ℕ) :
    Except Err (List Cell × OpenB) :=
  match tok with
  | GoVal.gf x => Except.ok (fcell x :: st, ob)
  | GoVal.gi n =>
      Except.error (synErr ("unexpected token type at position " ++ toString (pos + 1) ++ ": " ++ toString n))
  | GoVal.gs token =>
      match token with
      | "DAY" => Except.ok (fcell (RVal.fin 86400) :: st, ob)
      | "HOUR" => Except.ok (fcell (RVal.fin 3600) :: st, ob)
      | "INF" => Except.ok (fcell RVal.pinf :: st, ob)
      | "LTIME" =>
          if ctx.isTimeSet then Except.ok (fcell (RVal.fin ctx.jSec) :: st, ob)
          else Except.ok (scell token :: st, obAdd ob "TIME" 1)
      | "MINUTE" => Except.ok (fcell (RVal.fin 60) :: st, ob)
      | "NEGINF" => Except.ok (fcell RVal.ninf :: st, ob)
      | "NEWDAY" =>
          if ctx.isTimeSet then
            Except.ok (fcell (RVal.fin (isFirstOfDay ctx.jSec ctx.spi)) :: st, ob)
          else Except.ok (scell token :: st, obAdd ob "TIME" 1)
      | "NEWMONTH" =>
          if ctx.isTimeSet then
            if ctx.T.jDayOfMonth ctx.zInt = 1 then
              Except.ok (fcell (RVal.fin (isFirstOfDay ctx.jSec ctx.spi)) :: st, ob)
            else Except.ok (fcell (RVal.fin 0) :: st, ob)
          else Except.ok (scell token :: st, obAdd ob "TIME" 1)
      | "NEWWEEK" =>
          if ctx.isTimeSet then
            if ctx.T.jWeekdayIsSunday ctx.zInt then
              Except.ok (fcell (RVal.fin (isFirstOfDay ctx.jSec ctx.spi)) :: st, ob)
            else Except.ok (fcell (RVal.fin 0) :: st, ob)
          else Except.ok (scell token :: st, obAdd ob "TIME" 1)
      | "NEWYEAR" =>
          if ctx.isTimeSet then
            if ctx.T.jMonth ctx.zInt = 1 && ctx.T.jDayOfMonth ctx.zInt = 1 then
              Except.ok (fcell (RVal.fin (isFirstOfDay ctx.jSec ctx.spi)) :: st, ob)
            else Except.ok (fcell (RVal.fin 0) :: st, ob)
          else Except.ok (scell token :: st, obAdd ob "TIME" 1)
      | "NOW" =>
          if ctx.perfTime then Except.ok (fcell (RVal.fin ctx.nowSeconds) :: st, ob)
          else Except.ok (scell token :: st, obAdd ob "NOW" 1)
      | "STEPWIDTH" => Except.ok (fcell (RVal.fin ctx.spi) :: st, ob)
      | "TIME" =>
          if ctx.isTimeSet then Except.ok ((⟨GoVal.gf ctx.zTime, true⟩ : Cell) :: st, ob)
          else Except.ok (scell token :: st, obAdd ob "TIME" 1)
      | "UNKN" => Except.ok (fcell RVal.nan :: st, ob)
      | "WEEK" => Except.ok (fcell (RVal.fin 604800) :: st, ob)
      | "" => Except.error (synErr "empty token")
      | _ =>
          match arity token with
          | some t => applyOp ctx.T ctx.bnds ctx.spi token t st ob
          | none =>
              match parseNum token with
              | some x => Except.ok (fcell x :: st, ob)
              | none =>
                  match blookup ctx.bnds token with
                  | some (BVal.scalar x) => Except.ok (fcell x :: st, ob)
                  | some (BVal.series _) => Except.ok (scell token :: st, obAdd ob token 1)
                  | none => Except.ok (scell token :: st, obAdd ob token 1)

/-- The token loop of `simplify`.  On an error, the partially updated
work area (the state reached before the failing token) is returned
alongside the error, matching the partially written receiver state in
Go. -/
def runTokens (ctx : SimCtx) : List GoVal → ℕ → List Cell → OpenB →
    (List Cell × OpenB) × Option Err
  | [], _, st, ob => ((st, ob), none)
  | tok :: rest, pos, st, ob =>
      match stepTok ctx tok st ob pos with
      | Except.ok (st₂, ob₂) => runTokens ctx rest (pos + 1) st₂ ob₂
      | Except.error e => ((st, ob), some e)

/-- An RPN `Expression`: the persistent fields (delimiter,
seconds-per-interval, time-substitution flag, compiled token sequence)
plus the receiver-held work area (`scratch` with its head, and the
open-bindings map) that `simplify` overwrites on every call.  The
scratch list holds exactly the live cells (head = top of stack), so
`scratchHead` is its length. -/
structure Expression : Type where
  delimiter : Char
  secondsPerInterval : ℚ
  performTimeSubstitutions : Bool
  tokens : List GoVal
  scratch : List Cell
  openBindings : OpenB
  deriving DecidableEq

/-- The pre-loop part of `simplify`: read the clock once, and derive
the `TIME`-related state from the bindings (a `TIME` bound to a series
is an immediate syntax error). -/
def mkCtx (T : TransOps) (now : ℚ) (bnds : Bindings) (spi : ℚ) (perfTime : Bool) :
    Except Err SimCtx :=
  if perfTime then
    match blookup bnds "TIME" with
    | some (BVal.scalar z) =>
        let zInt := toCount z
        let jSec : ℚ := zInt + T.jOffset zInt
        Except.ok ⟨T, bnds, spi, perfTime, now, true, z, zInt, jSec⟩
    | some (BVal.series _) =>
        Except.error (synErr "TIME ought to be bound to number rather than []float64")
    | none => Except.ok ⟨T, bnds, spi, perfTime, now, false, RVal.nan, 0, 0⟩
  else Except.ok ⟨T, bnds, spi, perfTime, now, false, RVal.nan, 0, 0⟩

/-- One `simplify` pass over a stored program: returns the final work
area (or the partial one reached at an error) and the error, if any. -/
def simplifyRun (T : TransOps) (now : ℚ) (bnds : Bindings) (spi : ℚ) (perfTime : Bool)
    (tokens : List GoVal) : (List Cell × OpenB) × Option Err :=
  match mkCtx T now bnds spi perfTime with
  | Except.error e => (([], (∅ : OpenB)), some e)
  | Except.ok ctx => runTokens ctx tokens 0 [] (∅ : OpenB)

/-- `e.simplify(bindings)` as a state transformer on the receiver: the
work area is overwritten, the persistent fields are untouched. -/
def Expression.simplifySt (T : TransOps) (now : ℚ) (e : Expression) (bnds : Bindings) :
    Expression × Option Err :=
  let r := simplifyRun T now bnds e.secondsPerInterval e.performTimeSubstitutions e.tokens
  ({ e with scratch := r.1.1, openBindings := r.1.2 }, r.2)

/-- Rendering of the scratch contents for the `extra parameters`
message (`%v` of the slice; Go would also print stale slots past the
head, which the list model does not retain). -/
def renderCells (st : List Cell) : String :=
  "[" ++ String.intercalate " " ((st.reverse).map (fun c => renderTok c.v)) ++ "]"

/-- `Evaluate`: one simplify pass on the receiver (mutating its work
area), then the open-bindings check, the single-item check, and the
float check on the remaining item.  Returns the result (or error)
together with the post-call receiver. -/
def Expression.evaluate (T : TransOps) (now : ℚ) (e : Expression) (bnds : Bindings) :
    Except Err RVal × Expression :=
  let (post, err?) := e.simplifySt T now bnds
  match err? with
  | some err => (Except.error err, post)
  | none =>
      let names := obPositive post.openBindings
      if names ≠ [] then (Except.error (Err.openBindings names), post)
      else if post.scratch.length ≠ 1 then
        (Except.error (synErr ("extra parameters: " ++ renderCells post.scratch)), post)
      else
        match (cellAt post.scratch 0).v with
        | GoVal.gf x => (Except.ok x, post)
        | v => (Except.error (Err.expectedFloat v.typeName), post)

/-- `Partial`: build a fresh Expression sharing the receiver's
persistent configuration and a copy of its tokens, simplify it with
time substitution disabled, restore the time-substitution flag, and
promote the residual stack (bottom first) to the new token sequence.
The receiver is only read. -/
def Expression.partialApply (T : TransOps) (e : Expression) (bnds : Bindings) :
    Except Err Expression :=
  let r := simplifyRun T 0 bnds e.secondsPerInterval false e.tokens
  match r.2 with
  | some err => Except.error err
  | none =>
      Except.ok { delimiter := e.delimiter
                  secondsPerInterval := e.secondsPerInterval
                  performTimeSubstitutions := e.performTimeSubstitutions
                  tokens := (r.1.1.reverse).map Cell.v
                  scratch := r.1.1
                  openBindings := r.1.2 }

/-- The token names that switch on time substitution at construction. -/
def timeTokens : List String :=
  ["NOW", "TIME", "LTIME", "NEWDAY", "NEWWEEK", "NEWMONTH", "NEWYEAR"]

/-- `New`: build an Expression from the (already delimiter-split)
token list, detect time-dependent tokens, and immediately apply
`Partial` with no bindings so the result is maximally folded.  The
lexer itself (splitting the program text on the delimiter) is the
out-of-scope tokenizer; an empty expression is rejected. -/
def newExpr (T : TransOps) (tokens : List String) (delim : Char := ',') (spi : ℚ := 300) :
    Except Err Expression :=
  if tokens.isEmpty then Except.error (Err.errSyntax "empty expression")
  else
    let e : Expression :=
      { delimiter := delim
        secondsPerInterval := spi
        performTimeSubstitutions := tokens.any (fun t => timeTokens.contains t)
        tokens := tokens.map GoVal.gs
        scratch := []
        openBindings := (∅ : OpenB) }
    e.partialApply T bnds₀
where bnds₀ : Bindings := ([] : List (String × BVal))

/-- `Expression.String()`: render the stored tokens joined by the
delimiter. -/
def Expression.render (e : Expression) : String :=
  String.intercalate (String.singleton e.delimiter) (e.tokens.map renderTok)

/-! ### Helper lemmas -/

theorem qtrunc_natCast (n : ℕ) : RVal.qtrunc (n : ℚ) = n := by
  simp [RVal.qtrunc]

theorem countCheckFull_pos (tok : String) (q : ℚ) (hq : 0 < q) :
    countCheckFull tok (RVal.fin q) = none := by
  simp [countCheckFull, RVal.isNaN, RVal.isPInf, RVal.isNInf, RVal.fle, RVal.flt, RVal.feq,
    asymm hq, hq.ne']

theorem takeCount_ok (tok : String) (n : ℕ) (hn : 0 < n) (w rest : List Cell)
    (hlen : w.length = n) :
    takeCount tok (fcell (RVal.fin (n : ℚ)) :: (w ++ rest)) = Except.ok (n : ℤ) := by
  have h0 : (0 : ℚ) < (n : ℚ) := by exact_mod_cast hn
  have hlt : ¬ ((w.length : ℤ) + (rest.length : ℤ) < (n : ℤ)) := by
    rw [hlen]; omega
  simp [takeCount, fcell, cellAt, getF, countCheckFull_pos tok _ h0, toCount, qtrunc_natCast,
    hlt, bind, Except.bind]

theorem countWindow_eq (c : Cell) (n : ℕ) (w rest : List Cell) (hlen : w.length = n) :
    countWindow (c :: (w ++ rest)) (n : ℤ) = w := by
  simp only [countWindow, List.drop_succ_cons, List.drop_zero, Int.toNat_natCast]
  rw [← hlen, List.take_left]

theorem scanFloats_none (l : List Cell) (hnorm : ∀ c ∈ l, c.isF = c.v.isGf)
    (hsym : ∃ c ∈ l, c.isF = false) : scanFloats l = Except.ok none := by
  induction l with
  | nil => rcases hsym with ⟨c, hc, _⟩; cases hc
  | cons c rest ih =>
      by_cases hcf : c.isF
      · have hgf : c.v.isGf := by rw [← hnorm c (by simp), hcf]
        obtain ⟨x, hx⟩ : ∃ x, c.v = GoVal.gf x := by
          cases hv : c.v <;> simp [hv, GoVal.isGf] at hgf ⊢
        rcases hsym with ⟨c₂, hc₂, hc₂f⟩
        rcases List.mem_cons.mp hc₂ with rfl | hmem
        · rw [hcf] at hc₂f; cases hc₂f
        · have hrec := ih (fun d hd => hnorm d (List.mem_cons_of_mem _ hd)) ⟨c₂, hmem, hc₂f⟩
          simp [scanFloats, hcf, hx, getF, hrec, bind, Except.bind]
      · simp [scanFloats, hcf]

theorem scanFloats_none_rev (w : List Cell) (hnorm : ∀ c ∈ w, c.isF = c.v.isGf)
    (hsym : ∃ c ∈ w, c.isF = false) : scanFloats w.reverse = Except.ok none := by
  refine scanFloats_none _ (fun c hc => hnorm c (List.mem_reverse.mp hc)) ?_
  rcases hsym with ⟨c, hc, hcf⟩
  exact ⟨c, List.mem_reverse.mpr hc, hcf⟩

theorem avg_defers (T : TransOps) (bnds : Bindings) (spi : ℚ) (ob : OpenB)
    (n : ℕ) (hn : 0 < n) (w rest : List Cell) (hlen : w.length = n)
    (hnorm : ∀ c ∈ w, c.isF = c.v.isGf) (hsym : ∃ c ∈ w, c.isF = false) :
    applyOp T bnds spi "AVG" ⟨1, 1, 1, 0, 0⟩ (fcell (RVal.fin (n : ℚ)) :: (w ++ rest)) ob =
      Except.ok (scell "AVG" :: fcell (RVal.fin (n : ℚ)) :: (w ++ rest), ob) := by
  have hbody : opBody T bnds spi "AVG" (fcell (RVal.fin (n : ℚ)) :: (w ++ rest)) ob =
      opAVG T bnds spi (fcell (RVal.fin (n : ℚ)) :: (w ++ rest)) ob := rfl
  have havg : opAVG T bnds spi (fcell (RVal.fin (n : ℚ)) :: (w ++ rest)) ob =
      Except.ok (OpOut.deferOp, ob) := by
    simp [opAVG, takeCount_ok "AVG" n hn w rest hlen,
      countWindow_eq _ n w rest hlen, scanFloats_none_rev w hnorm hsym, bind, Except.bind]
  simp only [fcell] at hbody havg
  simp [applyOp, floatCheckOK, nonOpCells, scanNonOperator, fcell, GoVal.isGf,
    bind, Except.bind, scell, hbody, havg]

theorem stdev_defers (T : TransOps) (bnds : Bindings) (spi : ℚ) (ob : OpenB)
    (n : ℕ) (hn : 0 < n) (w rest : List Cell) (hlen : w.length = n)
    (hnorm : ∀ c ∈ w, c.isF = c.v.isGf) (hsym : ∃ c ∈ w, c.isF = false) :
    applyOp T bnds spi "STDEV" ⟨1, 1, 1, 0, 0⟩ (fcell (RVal.fin (n : ℚ)) :: (w ++ rest)) ob =
      Except.ok (scell "STDEV" :: fcell (RVal.fin (n : ℚ)) :: (w ++ rest), ob) := by
  have hbody : opBody T bnds spi "STDEV" (fcell (RVal.fin (n : ℚ)) :: (w ++ rest)) ob =
      opSTDEV T bnds spi (fcell (RVal.fin (n : ℚ)) :: (w ++ rest)) ob := rfl
  have hstdev : opSTDEV T bnds spi (fcell (RVal.fin (n : ℚ)) :: (w ++ rest)) ob =
      Except.ok (OpOut.deferOp, ob) := by
    simp [opSTDEV, takeCount_ok "STDEV" n hn w rest hlen,
      countWindow_eq _ n w rest hlen, scanFloats_none_rev w hnorm hsym, bind, Except.bind]
  simp only [fcell] at hbody hstdev
  simp [applyOp, floatCheckOK, nonOpCells, scanNonOperator, fcell, GoVal.isGf,
    bind, Except.bind, scell, hbody, hstdev]

theorem median_defers (T : TransOps) (bnds : Bindings) (spi : ℚ) (ob : OpenB)
    (n : ℕ) (hn : 2 ≤ n) (w rest : List Cell) (hlen : w.length = n)
    (hnorm : ∀ c ∈ w, c.isF = c.v.isGf) (hsym : ∃ c ∈ w, c.isF = false) :
    applyOp T bnds spi "MEDIAN" ⟨1, 1, 1, 0, 0⟩ (fcell (RVal.fin (n : ℚ)) :: (w ++ rest)) ob =
      Except.ok (scell "MEDIAN" :: fcell (RVal.fin (n : ℚ)) :: (w ++ rest), ob) := by
  have hne1 : ¬ ((n : ℤ) = 1) := by omega
  have hbody : opBody T bnds spi "MEDIAN" (fcell (RVal.fin (n : ℚ)) :: (w ++ rest)) ob =
      opMEDIAN T bnds spi (fcell (RVal.fin (n : ℚ)) :: (w ++ rest)) ob := rfl
  have hmed : opMEDIAN T bnds spi (fcell (RVal.fin (n : ℚ)) :: (w ++ rest)) ob =
      Except.ok (OpOut.deferOp, ob) := by
    simp [opMEDIAN, takeCount_ok "MEDIAN" n (by omega) w rest hlen, hne1,
      countWindow_eq _ n w rest hlen, scanFloats_none_rev w hnorm hsym, bind, Except.bind]
  simp only [fcell] at hbody hmed
  simp [applyOp, floatCheckOK, nonOpCells, scanNonOperator, fcell, GoVal.isGf,
    bind, Except.bind, scell, hbody, hmed]

theorem mad_defers (T : TransOps) (bnds : Bindings) (spi : ℚ) (ob : OpenB)
    (n : ℕ) (hn : 2 ≤ n) (w rest : List Cell) (hlen : w.length = n)
    (hnorm : ∀ c ∈ w, c.isF = c.v.isGf) (hsym : ∃ c ∈ w, c.isF = false) :
    applyOp T bnds spi "MAD" ⟨1, 1, 1, 0, 0⟩ (fcell (RVal.fin (n : ℚ)) :: (w ++ rest)) ob =
      Except.ok (scell "MAD" :: fcell (RVal.fin (n : ℚ)) :: (w ++ rest), ob) := by
  have hne1 : ¬ ((n : ℤ) = 1) := by omega
  have hbody : opBody T bnds spi "MAD" (fcell (RVal.fin (n : ℚ)) :: (w ++ rest)) ob =
      opMAD T bnds spi (fcell (RVal.fin (n : ℚ)) :: (w ++ rest)) ob := rfl
  have hmad : opMAD T bnds spi (fcell (RVal.fin (n : ℚ)) :: (w ++ rest)) ob =
      Except.ok (OpOut.deferOp, ob) := by
    simp [opMAD, takeCount_ok "MAD" n (by omega) w rest hlen, hne1,
      countWindow_eq _ n w rest hlen, scanFloats_none_rev w hnorm hsym, bind, Except.bind]
  simp only [fcell] at hbody hmad
  simp [applyOp, floatCheckOK, nonOpCells, scanNonOperator, fcell, GoVal.isGf,
    bind, Except.bind, scell, hbody, hmad]

theorem smax_defers (T : TransOps) (bnds : Bindings) (spi : ℚ) (ob : OpenB)
    (n : ℕ) (hn : 2 ≤ n) (c₀ : Cell) (w' rest : List Cell) (hlen : (c₀ :: w').length = n)
    (hnorm : ∀ c ∈ c₀ :: w', c.isF = c.v.isGf) (hsym : ∃ c ∈ c₀ :: w', c.isF = false) :
    applyOp T bnds spi "SMAX" ⟨1, 1, 1, 0, 0⟩
        (fcell (RVal.fin (n : ℚ)) :: ((c₀ :: w') ++ rest)) ob =
      Except.ok (scell "SMAX" :: fcell (RVal.fin (n : ℚ)) :: ((c₀ :: w') ++ rest), ob) := by
  have hne1 : ¬ ((n : ℤ) = 1) := by omega
  have hbody : opBody T bnds spi "SMAX" (fcell (RVal.fin (n : ℚ)) :: ((c₀ :: w') ++ rest)) ob =
      opSMAX T bnds spi (fcell (RVal.fin (n : ℚ)) :: ((c₀ :: w') ++ rest)) ob := rfl
  have harm : opSMAX T bnds spi (fcell (RVal.fin (n : ℚ)) :: ((c₀ :: w') ++ rest)) ob =
      Except.ok (OpOut.deferOp, ob) := by
    have htc : takeCount "SMAX" (fcell (RVal.fin (n : ℚ)) :: c₀ :: (w' ++ rest)) =
        Except.ok (n : ℤ) := by
      simpa using takeCount_ok "SMAX" n (by omega) (c₀ :: w') rest hlen
    rcases hv : c₀.v with x | s | k
    · -- the top of the window is a float64: the ascending scan over the
      -- rest of the window hits the symbolic cell and defers
      have hc₀ : c₀.isF = true := by rw [hnorm c₀ (by simp), hv]; rfl
      rcases hsym with ⟨c₂, hc₂, hc₂f⟩
      rcases List.mem_cons.mp hc₂ with rfl | hmem
      · rw [hc₀] at hc₂f; cases hc₂f
      have hw' : (w'.length) = n - 1 := by simp at hlen; omega
      have htake : List.take (n - 1) (w' ++ rest) = w' := by
        rw [← hw']; exact List.take_left w' rest
      have hscan : scanFloats w'.reverse = Except.ok none :=
        scanFloats_none_rev w' (fun d hd => hnorm d (by simp [hd])) ⟨c₂, hmem, hc₂f⟩
      simp [opSMAX, htc, hne1, cellAt, hv, htake, hscan, bind, Except.bind]
    · simp [opSMAX, htc, hne1, cellAt, hv, bind, Except.bind]
    · simp [opSMAX, htc, hne1, cellAt, hv, bind, Except.bind]
  simp only [fcell, List.cons_append] at hbody harm
  simp [applyOp, floatCheckOK, nonOpCells, scanNonOperator, fcell, GoVal.isGf,
    bind, Except.bind, scell, hbody, harm]

theorem smin_defers (T : TransOps) (bnds : Bindings) (spi : ℚ) (ob : OpenB)
    (n : ℕ) (hn : 2 ≤ n) (c₀ : Cell) (w' rest : List Cell) (hlen : (c₀ :: w').length = n)
    (hnorm : ∀ c ∈ c₀ :: w', c.isF = c.v.isGf) (hsym : ∃ c ∈ c₀ :: w', c.isF = false) :
    applyOp T bnds spi "SMIN" ⟨1, 1, 1, 0, 0⟩
        (fcell (RVal.fin (n : ℚ)) :: ((c₀ :: w') ++ rest)) ob =
      Except.ok (scell "SMIN" :: fcell (RVal.fin (n : ℚ)) :: ((c₀ :: w') ++ rest), ob) := by
  have hne1 : ¬ ((n : ℤ) = 1) := by omega
  have hbody : opBody T bnds spi "SMIN" (fcell (RVal.fin (n : ℚ)) :: ((c₀ :: w') ++ rest)) ob =
      opSMIN T bnds spi (fcell (RVal.fin (n : ℚ)) :: ((c₀ :: w') ++ rest)) ob := rfl
  have harm : opSMIN T bnds spi (fcell (RVal.fin (n : ℚ)) :: ((c₀ :: w') ++ rest)) ob =
      Except.ok (OpOut.deferOp, ob) := by
    have htc : takeCount "SMIN" (fcell (RVal.fin (n : ℚ)) :: c₀ :: (w' ++ rest)) =
        Except.ok (n : ℤ) := by
      simpa using takeCount_ok "SMIN" n (by omega) (c₀ :: w') rest hlen
    rcases hv : c₀.v with x | s | k
    · have hc₀ : c₀.isF = true := by rw [hnorm c₀ (by simp), hv]; rfl
      rcases hsym with ⟨c₂, hc₂, hc₂f⟩
      rcases List.mem_cons.mp hc₂ with rfl | hmem
      · rw [hc₀] at hc₂f; cases hc₂f
      have hw' : (w'.length) = n - 1 := by simp at hlen; omega
      have htake : List.take (n - 1) (w' ++ rest) = w' := by
        rw [← hw']; exact List.take_left w' rest
      have hscan : scanFloats w'.reverse = Except.ok none :=
        scanFloats_none_rev w' (fun d hd => hnorm d (by simp [hd])) ⟨c₂, hmem, hc₂f⟩
      simp [opSMIN, htc, hne1, cellAt, hv, htake, hscan, bind, Except.bind]
    · simp [opSMIN, htc, hne1, cellAt, hv, bind, Except.bind]
    · simp [opSMIN, htc, hne1, cellAt, hv, bind, Except.bind]
  simp only [fcell, List.cons_append] at hbody harm
  simp [applyOp, floatCheckOK, nonOpCells, scanNonOperator, fcell, GoVal.isGf,
    bind, Except.bind, scell, hbody, harm]

theorem percent_defers (T : TransOps) (bnds : Bindings) (spi : ℚ) (ob : OpenB)
    (n : ℕ) (hn : 0 < n) (p : ℚ) (hp : 0 < p) (w rest : List Cell) (hlen : w.length = n)
    (hnorm : ∀ c ∈ w, c.isF = c.v.isGf) (hsym : ∃ c ∈ w, c.isF = false) :
    applyOp T bnds spi "PERCENT" ⟨2, 2, 2, 0, 0⟩
        (fcell (RVal.fin (n : ℚ)) :: fcell (RVal.fin p) :: (w ++ rest)) ob =
      Except.ok (scell "PERCENT" :: fcell (RVal.fin (n : ℚ)) :: fcell (RVal.fin p) ::
        (w ++ rest), ob) := by
  have hbody : opBody T bnds spi "PERCENT"
      (fcell (RVal.fin (n : ℚ)) :: fcell (RVal.fin p) :: (w ++ rest)) ob =
      opPERCENT T bnds spi (fcell (RVal.fin (n : ℚ)) :: fcell (RVal.fin p) :: (w ++ rest)) ob := rfl
  have harm : opPERCENT T bnds spi
      (fcell (RVal.fin (n : ℚ)) :: fcell (RVal.fin p) :: (w ++ rest)) ob =
      Except.ok (OpOut.deferOp, ob) := by
    have hlt : ¬ ((w.length : ℤ) + (rest.length : ℤ) + 1 + 1 - 2 < (n : ℤ)) := by
      rw [hlen]; omega
    have htake : List.take n (w ++ rest) = w := by
      rw [← hlen]; exact List.take_left w rest
    simp [opPERCENT, cellAt, getF, fcell, countCheckFull_pos "PERCENT" p hp, countCheckNoSign,
      RVal.isNaN, RVal.isPInf, RVal.isNInf, toCount, qtrunc_natCast, hlt, htake,
      scanFloats_none_rev w hnorm hsym, bind, Except.bind]
  simp only [fcell, List.cons_append] at hbody harm
  simp [applyOp, floatCheckOK, nonOpCells, scanNonOperator, fcell, GoVal.isGf,
    bind, Except.bind, scell, hbody, harm]

theorem median_pinhole (T : TransOps) (bnds : Bindings) (spi : ℚ) (ob : OpenB)
    (c : Cell) (rest : List Cell) :
    applyOp T bnds spi "MEDIAN" ⟨1, 1, 1, 0, 0⟩ (fcell (RVal.fin 1) :: c :: rest) ob =
      Except.ok ((⟨c.v, c.v.isGf⟩ : Cell) :: rest, ob) := by
  have h1 : takeCount "MEDIAN" (fcell (RVal.fin 1) :: c :: rest) = Except.ok (1 : ℤ) := by
    have := takeCount_ok "MEDIAN" 1 (by omega) [c] rest rfl
    simpa using this
  have hbody : opBody T bnds spi "MEDIAN" (fcell (RVal.fin 1) :: c :: rest) ob =
      opMEDIAN T bnds spi (fcell (RVal.fin 1) :: c :: rest) ob := rfl
  have harm : opMEDIAN T bnds spi (fcell (RVal.fin 1) :: c :: rest) ob =
      Except.ok (OpOut.res c.v 1, ob) := by
    simp [opMEDIAN, h1, cellAt, bind, Except.bind]
  simp only [fcell] at hbody harm
  simp [applyOp, floatCheckOK, nonOpCells, scanNonOperator, fcell, GoVal.isGf,
    bind, Except.bind, hbody, harm]

theorem mad_pinhole (T : TransOps) (bnds : Bindings) (spi : ℚ) (ob : OpenB)
    (c : Cell) (rest : List Cell) :
    applyOp T bnds spi "MAD" ⟨1, 1, 1, 0, 0⟩ (fcell (RVal.fin 1) :: c :: rest) ob =
      Except.ok ((⟨c.v, c.v.isGf⟩ : Cell) :: rest, ob) := by
  have h1 : takeCount "MAD" (fcell (RVal.fin 1) :: c :: rest) = Except.ok (1 : ℤ) := by
    have := takeCount_ok "MAD" 1 (by omega) [c] rest rfl
    simpa using this
  have hbody : opBody T bnds spi "MAD" (fcell (RVal.fin 1) :: c :: rest) ob =
      opMAD T bnds spi (fcell (RVal.fin 1) :: c :: rest) ob := rfl
  have harm : opMAD T bnds spi (fcell (RVal.fin 1) :: c :: rest) ob =
      Except.ok (OpOut.res c.v 1, ob) := by
    simp [opMAD, h1, cellAt, bind, Except.bind]
  simp only [fcell] at hbody harm
  simp [applyOp, floatCheckOK, nonOpCells, scanNonOperator, fcell, GoVal.isGf,
    bind, Except.bind, hbody, harm]

theorem smax_pinhole (T : TransOps) (bnds : Bindings) (spi : ℚ) (ob : OpenB)
    (c : Cell) (rest : List Cell) :
    applyOp T bnds spi "SMAX" ⟨1, 1, 1, 0, 0⟩ (fcell (RVal.fin 1) :: c :: rest) ob =
      Except.ok ((⟨c.v, c.v.isGf⟩ : Cell) :: rest, ob) := by
  have h1 : takeCount "SMAX" (fcell (RVal.fin 1) :: c :: rest) = Except.ok (1 : ℤ) := by
    have := takeCount_ok "SMAX" 1 (by omega) [c] rest rfl
    simpa using this
  have hbody : opBody T bnds spi "SMAX" (fcell (RVal.fin 1) :: c :: rest) ob =
      opSMAX T bnds spi (fcell (RVal.fin 1) :: c :: rest) ob := rfl
  have harm : opSMAX T bnds spi (fcell (RVal.fin 1) :: c :: rest) ob =
      Except.ok (OpOut.res c.v 1, ob) := by
    simp [opSMAX, h1, cellAt, bind, Except.bind]
  simp only [fcell] at hbody harm
  simp [applyOp, floatCheckOK, nonOpCells, scanNonOperator, fcell, GoVal.isGf,
    bind, Except.bind, hbody, harm]

theorem smin_pinhole (T : TransOps) (bnds : Bindings) (spi : ℚ) (ob : OpenB)
    (c : Cell) (rest : List Cell) :
    applyOp T bnds spi "SMIN" ⟨1, 1, 1, 0, 0⟩ (fcell (RVal.fin 1) :: c :: rest) ob =
      Except.ok ((⟨c.v, c.v.isGf⟩ : Cell) :: rest, ob) := by
  have h1 : takeCount "SMIN" (fcell (RVal.fin 1) :: c :: rest) = Except.ok (1 : ℤ) := by
    have := takeCount_ok "SMIN" 1 (by omega) [c] rest rfl
    simpa using this
  have hbody : opBody T bnds spi "SMIN" (fcell (RVal.fin 1) :: c :: rest) ob =
      opSMIN T bnds spi (fcell (RVal.fin 1) :: c :: rest) ob := rfl
  have harm : opSMIN T bnds spi (fcell (RVal.fin 1) :: c :: rest) ob =
      Except.ok (OpOut.res c.v 1, ob) := by
    simp [opSMIN, h1, cellAt, bind, Except.bind]
  simp only [fcell] at hbody harm
  simp [applyOp, floatCheckOK, nonOpCells, scanNonOperator, fcell, GoVal.isGf,
    bind, Except.bind, hbody, harm]

/-! ### Claims -/

/-- C1: folding `a,b,GE` / `a,b,GT` / `a,b,LE` / `a,b,LT` on numeric
operands yields NaN (rendered `UNKN`) whenever either operand is NaN
and the ordinary 0/1 comparison result otherwise; in particular
`UNKN,13,GE` and `UNKN,13,GT` evaluate to NaN, while `EQ` and `NE` fold
NaN operands via ordinary float equality (yielding 0 resp. 1) without
propagating NaN. -/
theorem C1_relational_nan_quirk (T : TransOps) (now : ℚ) (bnds : Bindings) (spi : ℚ)
    (a b : RVal) :
    (simplifyRun T now bnds spi false [GoVal.gf a, GoVal.gf b, GoVal.gs "GE"] =
      (([fcell (relResGE a b)], (∅ : OpenB)), none))
  ∧ (relResGE a b = if a.isNaN || b.isNaN then RVal.nan
      else if RVal.fge a b then RVal.fin 1 else RVal.fin 0)
  ∧ (simplifyRun T now bnds spi false [GoVal.gf a, GoVal.gf b, GoVal.gs "GT"] =
      (([fcell (relResGT a b)], (∅ : OpenB)), none))
  ∧ (relResGT a b = if a.isNaN || b.isNaN then RVal.nan
      else if RVal.fgt a b then RVal.fin 1 else RVal.fin 0)
  ∧ (simplifyRun T now bnds spi false [GoVal.gf a, GoVal.gf b, GoVal.gs "LE"] =
      (([fcell (relResLE a b)], (∅ : OpenB)), none))
  ∧ (relResLE a b = if a.isNaN || b.isNaN then RVal.nan
      else if RVal.fle a b then RVal.fin 1 else RVal.fin 0)
  ∧ (simplifyRun T now bnds spi false [GoVal.gf a, GoVal.gf b, GoVal.gs "LT"] =
      (([fcell (relResLT a b)], (∅ : OpenB)), none))
  ∧ (relResLT a b = if a.isNaN || b.isNaN then RVal.nan
      else if RVal.flt a b then RVal.fin 1 else RVal.fin 0)
  ∧ (simplifyRun T now bnds spi false [GoVal.gf a, GoVal.gf b, GoVal.gs "EQ"] =
      (([fcell (relResEQ a b)], (∅ : OpenB)), none))
  ∧ (simplifyRun T now bnds spi false [GoVal.gf a, GoVal.gf b, GoVal.gs "NE"] =
      (([fcell (relResNE a b)], (∅ : OpenB)), none))
  ∧ (relResEQ RVal.nan b = RVal.fin 0)
  ∧ (relResNE RVal.nan b = RVal.fin 1)
  ∧ (relResEQ a RVal.nan = RVal.fin 0)
  ∧ (relResNE a RVal.nan = RVal.fin 1)
  ∧ ((newExpr dummyOps ["UNKN", "13", "GE"]).map Expression.render = Except.ok "UNKN")
  ∧ ((newExpr dummyOps ["UNKN", "13", "GT"]).map Expression.render = Except.ok "UNKN") := by
  refine ⟨rfl, ?_, rfl, ?_, rfl, ?_, rfl, ?_, rfl, rfl, ?_, ?_, ?_, ?_, rfl, rfl⟩
  · rcases a <;> rcases b <;> simp [relResGE, RVal.isNaN]
  · rcases a <;> rcases b <;> simp [relResGT, RVal.isNaN]
  · rcases a <;> rcases b <;> simp [relResLE, RVal.isNaN]
  · rcases a <;> rcases b <;> simp [relResLT, RVal.isNaN]
  · rcases b <;> rfl
  · rcases b <;> rfl
  · rcases a <;> simp [relResEQ, RVal.feq]
  · rcases a <;> simp [relResNE, RVal.feq]

/-- C9: processing any operator token with fewer items on the operand
stack than the operator's pop count fails immediately with the exact
message `not enough parameters: operator <name> requires <n> operands`. -/
theorem C9_arity_error (T : TransOps) (bnds : Bindings) (spi : ℚ) (tok : String)
    (t : ArityTuple) (st : List Cell) (ob : OpenB)
    (h₁ : arity tok = some t) (h₂ : st.length < t.popCount) :
    applyOp T bnds spi tok t st ob =
      Except.error (synErr ("not enough parameters: operator " ++ tok ++ " requires " ++
        toString t.popCount ++ " operands")) := by
  unfold applyOp
  rw [if_pos h₂]

/-- Witness for C9: `POP` on an empty stack produces exactly the error
pinned by the test suite. -/
theorem C9_arity_error_witness :
    arity "POP" = some ⟨1, 0, 0, 0, 0⟩ ∧ ([] : List Cell).length < 1 ∧
    applyOp dummyOps (∅ : Bindings) 300 "POP" ⟨1, 0, 0, 0, 0⟩ [] (∅ : OpenB) =
      Except.error (synErr "not enough parameters: operator POP requires 1 operands") := by
  refine ⟨rfl, by decide, ?_⟩
  have h := C9_arity_error dummyOps (∅ : Bindings) 300 "POP" ⟨1, 0, 0, 0, 0⟩ [] (∅ : OpenB)
    rfl (by decide)
  simpa using h

unseal Rat.mul Rat.add Rat.sub Rat.inv in
/-- C10: a count operand that is positive, finite and non-integral is
not rejected by the count validation (which only rejects NaN, ±Inf,
zero and negatives); the accepted value is truncated toward zero by the
`int` conversion and the operator proceeds with the truncated window:
`1,2,3,2.5,AVG` behaves exactly like `1,2,3,2,AVG` (window 2, mean
2.5), and `3,1,2.5,SORT` like `3,1,2,SORT`. -/
theorem C10_fractional_count (q : ℚ) (hq : 0 < q) (tok : String) :
    countCheckFull tok (RVal.fin q) = none
  ∧ toCount (RVal.fin q) = RVal.qtrunc q
  ∧ ((newExpr dummyOps ["1", "2", "3", "2.5", "AVG"]).map Expression.render = Except.ok "1,2.5")
  ∧ (newExpr dummyOps ["1", "2", "3", "2.5", "AVG"] = newExpr dummyOps ["1", "2", "3", "2", "AVG"])
  ∧ ((newExpr dummyOps ["3", "1", "2.5", "SORT"]).map Expression.render = Except.ok "1,3")
  ∧ (newExpr dummyOps ["3", "1", "2.5", "SORT"] = newExpr dummyOps ["3", "1", "2", "SORT"]) := by
  refine ⟨countCheckFull_pos tok q hq, rfl, ?_, ?_, ?_, ?_⟩ <;> rfl

/-- Witness for C10 at the fractional count 2.5. -/
theorem C10_fractional_count_witness :
    (0 : ℚ) < 5 / 2 ∧ countCheckFull "AVG" (RVal.fin (5 / 2)) = none :=
  ⟨by norm_num, (C10_fractional_count (5 / 2) (by norm_num) "AVG").1⟩

unseal Rat.mul Rat.add Rat.sub Rat.inv in
/-- C4 (code bug): the count parameter of `PERCENT` is validated only
against NaN and ±Inf — the `<= 0` rejection present for every other
count-parameterized operator is missing — so a zero or negative count
reaches the nearest-rank indexing `items[ceil(p/100*n)-1]` and panics
with an index-out-of-range runtime error instead of failing with the
Syntax error `PERCENT operator requires positive finite integer: 0`
that the operator's own message (and the claim) promise.  For contrast,
`AVG` rejects a zero count with exactly that Syntax error. -/
theorem C4_percent_zero_count_panics :
    newExpr dummyOps ["1", "2", "95", "0", "PERCENT"] =
      Except.error (Err.panicked "index out of range")
  ∧ newExpr dummyOps ["1", "2", "95", "-3", "PERCENT"] =
      Except.error (Err.panicked "index out of range")
  ∧ countCheckNoSign "PERCENT" (RVal.fin 0) = none
  ∧ newExpr dummyOps ["1", "2", "3", "0", "AVG"] =
      Except.error (synErr "AVG operator requires positive finite integer: 0") := by
  refine ⟨?_, ?_, ?_, ?_⟩ <;> rfl

/-- C2 (amended): `Evaluate` returns errors in the order: a
simplification error first; then `OpenBindings` listing exactly the
names with positive open-binding count; then the `extra parameters`
Syntax error whenever the number of remaining stack items differs from
one (zero included — not only "more than one"); then `ExpectedFloat`
for a single symbolic item; else the single numeric item. -/
theorem C2_evaluate_error_precedence (T : TransOps) (now : ℚ) (e : Expression)
    (bnds : Bindings) :
    (∀ err, (e.simplifySt T now bnds).2 = some err →
        (e.evaluate T now bnds).1 = Except.error err)
  ∧ ((e.simplifySt T now bnds).2 = none →
      obPositive (e.simplifySt T now bnds).1.openBindings ≠ [] →
        (e.evaluate T now bnds).1 =
          Except.error (Err.openBindings (obPositive (e.simplifySt T now bnds).1.openBindings)))
  ∧ ((e.simplifySt T now bnds).2 = none →
      obPositive (e.simplifySt T now bnds).1.openBindings = [] →
      (e.simplifySt T now bnds).1.scratch.length ≠ 1 →
        (e.evaluate T now bnds).1 = Except.error (synErr ("extra parameters: " ++
          renderCells (e.simplifySt T now bnds).1.scratch)))
  ∧ (∀ x bflag, (e.simplifySt T now bnds).2 = none →
      obPositive (e.simplifySt T now bnds).1.openBindings = [] →
      (e.simplifySt T now bnds).1.scratch = [⟨GoVal.gf x, bflag⟩] →
        (e.evaluate T now bnds).1 = Except.ok x)
  ∧ (∀ s bflag, (e.simplifySt T now bnds).2 = none →
      obPositive (e.simplifySt T now bnds).1.openBindings = [] →
      (e.simplifySt T now bnds).1.scratch = [⟨GoVal.gs s, bflag⟩] →
        (e.evaluate T now bnds).1 = Except.error (Err.expectedFloat "string"))
  ∧ (∀ k bflag, (e.simplifySt T now bnds).2 = none →
      obPositive (e.simplifySt T now bnds).1.openBindings = [] →
      (e.simplifySt T now bnds).1.scratch = [⟨GoVal.gi k, bflag⟩] →
        (e.evaluate T now bnds).1 = Except.error (Err.expectedFloat "int")) := by
  refine ⟨?_, ?_, ?_, ?_, ?_, ?_⟩
  · intro err herr
    simp [Expression.evaluate, herr]
  · intro hnone hpos
    simp [Expression.evaluate, hnone, hpos]
  · intro hnone hpos hlen
    simp [Expression.evaluate, hnone, hpos, hlen]
  · intro x bflag hnone hpos hsc
    simp [Expression.evaluate, hnone, hpos, hsc, cellAt]
  · intro s bflag hnone hpos hsc
    simp [Expression.evaluate, hnone, hpos, hsc, cellAt, GoVal.typeName]
  · intro k bflag hnone hpos hsc
    simp [Expression.evaluate, hnone, hpos, hsc, cellAt, GoVal.typeName]

/-- The one-token program `7`, used as the C2 witness input. -/
def exprSeven : Expression := ⟨',', 300, false, [GoVal.gf (RVal.fin 7)], [], (∅ : OpenB)⟩

/-- The program `1,POP`, whose evaluation leaves zero items. -/
def exprOnePop : Expression :=
  ⟨',', 300, false, [GoVal.gf (RVal.fin 1), GoVal.gs "POP"], [], (∅ : OpenB)⟩

/-- Witness for C2 at the single-token program `7`: no simplification
error, no open bindings, a single numeric item, and `Evaluate` returns
it. -/
theorem C2_evaluate_error_precedence_witness :
    (exprSeven.simplifySt dummyOps 0 (∅ : Bindings)).2 = none
  ∧ obPositive (exprSeven.simplifySt dummyOps 0 (∅ : Bindings)).1.openBindings = []
  ∧ (exprSeven.simplifySt dummyOps 0 (∅ : Bindings)).1.scratch = [⟨GoVal.gf (RVal.fin 7), true⟩]
  ∧ (exprSeven.evaluate dummyOps 0 (∅ : Bindings)).1 = Except.ok (RVal.fin 7) :=
  ⟨by rfl, by rfl, by rfl,
   (C2_evaluate_error_precedence dummyOps 0 exprSeven (∅ : Bindings)).2.2.2.1 (RVal.fin 7) true
     (by rfl) (by rfl) (by rfl)⟩

/-- C2 counterexample: for the program `1,POP` the whole stack is
consumed, zero items remain, and `Evaluate` nevertheless fails with the
`extra parameters` Syntax error — so "more than one item remains" is
not the condition the code tests (it tests "not exactly one"). -/
theorem C2_counterexample_zero_items :
    (exprOnePop.evaluate dummyOps 0 (∅ : Bindings)).1 =
      Except.error (synErr "extra parameters: []")
  ∧ (exprOnePop.evaluate dummyOps 0 (∅ : Bindings)).2.scratch.length = 0 :=
  ⟨by rfl, by rfl⟩

unseal Rat.mul Rat.add Rat.sub Rat.inv in
/-- C3 (amended): with both operands numeric, `POW` folds via
`math.Pow`, so `a,0,POW` gives 1 for every a, `1,b,POW` gives 1 for
every b, `a,1,POW` gives a, and `0,b,POW` gives `Pow(0,b)` — which is 0
for b > 0, `+Inf` for b < 0, but 1 (not 0) for b = 0.  The identity
`0,b,POW → 0` unconditionally (and the other three identities) applies
only when the other operand is an unresolved symbol, as the residual
renders pinned by the tests show. -/
theorem C3_pow_identities (T : TransOps) (now : ℚ) (bnds : Bindings) (spi : ℚ)
    (a b : RVal) (q : ℚ) :
    (simplifyRun T now bnds spi false [GoVal.gf a, GoVal.gf b, GoVal.gs "POW"] =
      (([fcell (rpow T a b)], (∅ : OpenB)), none))
  ∧ rpow T a (RVal.fin 0) = RVal.fin 1
  ∧ rpow T (RVal.fin 1) b = RVal.fin 1
  ∧ rpow T a (RVal.fin 1) = a
  ∧ rpow T (RVal.fin 0) (RVal.fin q) =
      (if q = 0 then RVal.fin 1 else if q < 0 then RVal.pinf else RVal.fin 0)
  ∧ ((newExpr dummyOps ["0", "b", "POW"]).map Expression.render = Except.ok "0")
  ∧ ((newExpr dummyOps ["a", "0", "POW"]).map Expression.render = Except.ok "1")
  ∧ ((newExpr dummyOps ["1", "b", "POW"]).map Expression.render = Except.ok "1")
  ∧ ((newExpr dummyOps ["a", "1", "POW"]).map Expression.render = Except.ok "a") := by
  refine ⟨rfl, rfl, ?_, ?_, ?_, rfl, rfl, rfl, rfl⟩
  · by_cases hb : b = RVal.fin 0 <;> simp [rpow, hb]
  · by_cases h1 : a = RVal.fin 1
    · simp [rpow, h1]
    · have h10 : ¬ (RVal.fin 1 = RVal.fin 0) := by decide
      simp [rpow, h10, h1]
  · by_cases hq : q = 0
    · simp [rpow, hq]
    · by_cases hq1 : q = 1
      · subst hq1
        norm_num [rpow, RVal.isNaN, RVal.isPInf, RVal.isNInf]
      · simp [rpow, hq, hq1, RVal.isNaN, RVal.isPInf, RVal.isNInf, RVal.flt]

unseal Rat.mul Rat.add Rat.sub Rat.inv in
/-- C3 counterexample: the literal program `0,0,POW`, with both
operands numeric, evaluates to 1 via `math.Pow(0, 0)`, not to the 0 the
claim asserts. -/
theorem C3_counterexample_zero_zero_pow :
    (newExpr dummyOps ["0", "0", "POW"]).bind
      (fun e => (e.evaluate dummyOps 0 (∅ : Bindings)).1) = Except.ok (RVal.fin 1)
  ∧ RVal.fin 1 ≠ RVal.fin 0 := by
  exact ⟨by rfl, by decide⟩

/-- C5 (amended): with a valid numeric count n and a window containing
an unresolved symbol, AVG, STDEV and PERCENT always defer unresolved
(pushing the operator symbol and leaving count and window intact), and
so do MEDIAN, MAD, SMIN and SMAX when n ≥ 2; but, contrary to the
claim, for n = 1 MEDIAN, MAD, SMIN and SMAX do not defer: the pin-hole
optimization folds them to the single windowed operand, even when it is
a symbol, consuming the count. -/
theorem C5_windowed_aggregates_defer (ctx : SimCtx) (ob : OpenB) (pos : ℕ)
    (n : ℕ) (hn : 0 < n) (p : ℚ) (hp : 0 < p) (w rest : List Cell)
    (hlen : w.length = n)
    (hnorm : ∀ c ∈ w, c.isF = c.v.isGf)
    (hsym : ∃ c ∈ w, ∃ s, c.v = GoVal.gs s) :
    (stepTok ctx (GoVal.gs "AVG") (fcell (RVal.fin (n : ℚ)) :: (w ++ rest)) ob pos =
      Except.ok (scell "AVG" :: fcell (RVal.fin (n : ℚ)) :: (w ++ rest), ob))
  ∧ (stepTok ctx (GoVal.gs "STDEV") (fcell (RVal.fin (n : ℚ)) :: (w ++ rest)) ob pos =
      Except.ok (scell "STDEV" :: fcell (RVal.fin (n : ℚ)) :: (w ++ rest), ob))
  ∧ (2 ≤ n →
      stepTok ctx (GoVal.gs "MEDIAN") (fcell (RVal.fin (n : ℚ)) :: (w ++ rest)) ob pos =
        Except.ok (scell "MEDIAN" :: fcell (RVal.fin (n : ℚ)) :: (w ++ rest), ob))
  ∧ (2 ≤ n →
      stepTok ctx (GoVal.gs "MAD") (fcell (RVal.fin (n : ℚ)) :: (w ++ rest)) ob pos =
        Except.ok (scell "MAD" :: fcell (RVal.fin (n : ℚ)) :: (w ++ rest), ob))
  ∧ (2 ≤ n →
      stepTok ctx (GoVal.gs "SMIN") (fcell (RVal.fin (n : ℚ)) :: (w ++ rest)) ob pos =
        Except.ok (scell "SMIN" :: fcell (RVal.fin (n : ℚ)) :: (w ++ rest), ob))
  ∧ (2 ≤ n →
      stepTok ctx (GoVal.gs "SMAX") (fcell (RVal.fin (n : ℚ)) :: (w ++ rest)) ob pos =
        Except.ok (scell "SMAX" :: fcell (RVal.fin (n : ℚ)) :: (w ++ rest), ob))
  ∧ (stepTok ctx (GoVal.gs "PERCENT")
        (fcell (RVal.fin (n : ℚ)) :: fcell (RVal.fin p) :: (w ++ rest)) ob pos =
      Except.ok (scell "PERCENT" :: fcell (RVal.fin (n : ℚ)) :: fcell (RVal.fin p) ::
        (w ++ rest), ob))
  ∧ (∀ c rest₂, stepTok ctx (GoVal.gs "MEDIAN") (fcell (RVal.fin 1) :: c :: rest₂) ob pos =
      Except.ok ((⟨c.v, c.v.isGf⟩ : Cell) :: rest₂, ob))
  ∧ (∀ c rest₂, stepTok ctx (GoVal.gs "MAD") (fcell (RVal.fin 1) :: c :: rest₂) ob pos =
      Except.ok ((⟨c.v, c.v.isGf⟩ : Cell) :: rest₂, ob))
  ∧ (∀ c rest₂, stepTok ctx (GoVal.gs "SMIN") (fcell (RVal.fin 1) :: c :: rest₂) ob pos =
      Except.ok ((⟨c.v, c.v.isGf⟩ : Cell) :: rest₂, ob))
  ∧ (∀ c rest₂, stepTok ctx (GoVal.gs "SMAX") (fcell (RVal.fin 1) :: c :: rest₂) ob pos =
      Except.ok ((⟨c.v, c.v.isGf⟩ : Cell) :: rest₂, ob)) := by
  have hsymF : ∃ c ∈ w, c.isF = false := by
    rcases hsym with ⟨c, hc, s, hs⟩
    exact ⟨c, hc, by rw [hnorm c hc, hs]; rfl⟩
  refine ⟨?_, ?_, ?_, ?_, ?_, ?_, ?_, ?_, ?_, ?_, ?_⟩
  · exact avg_defers ctx.T ctx.bnds ctx.spi ob n hn w rest hlen hnorm hsymF
  · exact stdev_defers ctx.T ctx.bnds ctx.spi ob n hn w rest hlen hnorm hsymF
  · intro h2
    exact median_defers ctx.T ctx.bnds ctx.spi ob n h2 w rest hlen hnorm hsymF
  · intro h2
    exact mad_defers ctx.T ctx.bnds ctx.spi ob n h2 w rest hlen hnorm hsymF
  · intro h2
    rcases w with _ | ⟨c₀, w'⟩
    · simp at hlen; omega
    · exact smin_defers ctx.T ctx.bnds ctx.spi ob n h2 c₀ w' rest hlen hnorm hsymF
  · intro h2
    rcases w with _ | ⟨c₀, w'⟩
    · simp at hlen; omega
    · exact smax_defers ctx.T ctx.bnds ctx.spi ob n h2 c₀ w' rest hlen hnorm hsymF
  · exact percent_defers ctx.T ctx.bnds ctx.spi ob n hn p hp w rest hlen hnorm hsymF
  · intro c rest₂
    exact median_pinhole ctx.T ctx.bnds ctx.spi ob c rest₂
  · intro c rest₂
    exact mad_pinhole ctx.T ctx.bnds ctx.spi ob c rest₂
  · intro c rest₂
    exact smin_pinhole ctx.T ctx.bnds ctx.spi ob c rest₂
  · intro c rest₂
    exact smax_pinhole ctx.T ctx.bnds ctx.spi ob c rest₂

unseal Rat.mul Rat.add Rat.sub Rat.inv in
/-- C5 counterexample: the program `x,1,MEDIAN` with the unresolved
symbol x in its window does not defer with count and window intact (the
claim would require the residual `x,1,MEDIAN`): the pin-hole
optimization folds it to the bare symbol `x`, as pinned by the test
suite. -/
theorem C5_counterexample_pinhole :
    (newExpr dummyOps ["x", "1", "MEDIAN"]).map Expression.render = Except.ok "x"
  ∧ "x" ≠ "x,1,MEDIAN" := by
  exact ⟨by rfl, by decide⟩

/-- C5 witness: the deferral theorem instantiated at the concrete window
`[x, 5]` with count 2 and percentile 95. -/
theorem C5_windowed_aggregates_defer_witness :
    ((0 : ℕ) < 2 ∧ (0 : ℚ) < 95
      ∧ ([scell "x", fcell (RVal.fin 5)] : List Cell).length = 2
      ∧ (∀ c ∈ ([scell "x", fcell (RVal.fin 5)] : List Cell), c.isF = c.v.isGf)
      ∧ (∃ c ∈ ([scell "x", fcell (RVal.fin 5)] : List Cell), ∃ s, c.v = GoVal.gs s))
  ∧ stepTok ⟨dummyOps, ∅, 300, false, 0, false, RVal.fin 0, 0, 0⟩ (GoVal.gs "AVG")
      (fcell (RVal.fin ((2 : ℕ) : ℚ)) :: ([scell "x", fcell (RVal.fin 5)] ++ []))
      (∅ : OpenB) 0 =
      Except.ok (scell "AVG" :: fcell (RVal.fin ((2 : ℕ) : ℚ)) ::
        ([scell "x", fcell (RVal.fin 5)] ++ []), (∅ : OpenB)) :=
  ⟨⟨by decide, by norm_num, by rfl, by decide,
      ⟨scell "x", by exact List.mem_cons_self _ _, "x", rfl⟩⟩,
    (C5_windowed_aggregates_defer ⟨dummyOps, ∅, 300, false, 0, false, RVal.fin 0, 0, 0⟩
      (∅ : OpenB) 0 2 (by decide) 95 (by norm_num) [scell "x", fcell (RVal.fin 5)] []
      (by rfl) (by decide)
      ⟨scell "x", by exact List.mem_cons_self _ _, "x", rfl⟩).1⟩

theorem runTokens_allgf (ctx : SimCtx) :
    ∀ (toks : List GoVal), (∀ t ∈ toks, ∃ x, t = GoVal.gf x) →
    ∀ (pos : ℕ) (st : List Cell) (ob : OpenB),
      runTokens ctx toks pos st ob =
        ((toks.reverse.map (fun t => (⟨t, true⟩ : Cell)) ++ st, ob), none)
  | [], _, _, _, _ => by simp [runTokens]
  | tok :: rest, h, pos, st, ob => by
      rcases h tok (List.mem_cons_self _ _) with ⟨x, hx⟩
      subst hx
      have ih := runTokens_allgf ctx rest
        (fun t ht => h t (List.mem_cons_of_mem _ ht)) (pos + 1) (fcell x :: st) ob
      simp only [fcell] at ih
      simp [runTokens, stepTok, fcell, ih]

/-- C6 (amended): `Partial` need not commute with taking the union of
staged bindings in general, but an already-fully-folded program — one
whose tokens are all numbers — is a fixed point of `Partial` under any
bindings: the call succeeds and returns an Expression with the same
token sequence, the same persistent configuration, and the same rendered
text, so folding it again (with the same or any other bindings) changes
nothing. -/
theorem C6_partial_fixed_point (T : TransOps) (e : Expression) (bnds : Bindings)
    (h : ∀ t ∈ e.tokens, ∃ x, t = GoVal.gf x) :
    ∃ e₂, e.partialApply T bnds = Except.ok e₂
      ∧ e₂.tokens = e.tokens
      ∧ e₂.delimiter = e.delimiter
      ∧ e₂.secondsPerInterval = e.secondsPerInterval
      ∧ e₂.performTimeSubstitutions = e.performTimeSubstitutions
      ∧ Expression.render e₂ = Expression.render e := by
  have hrun := runTokens_allgf ⟨T, bnds, e.secondsPerInterval, false, 0, false, RVal.nan, 0, 0⟩
    e.tokens h 0 [] (∅ : OpenB)
  refine ⟨{ delimiter := e.delimiter, secondsPerInterval := e.secondsPerInterval,
            performTimeSubstitutions := e.performTimeSubstitutions,
            tokens := e.tokens,
            scratch := List.map (fun t => (⟨t, true⟩ : Cell)) e.tokens.reverse,
            openBindings := (∅ : OpenB) }, ?_, rfl, rfl, rfl, rfl, rfl⟩
  simp only [Expression.partialApply, simplifyRun, mkCtx, if_neg Bool.false_ne_true, hrun]
  simp only [List.append_nil, List.map_reverse, List.reverse_reverse, List.map_map]
  have hcomp : (Cell.v ∘ fun t => ({ v := t, isF := true } : Cell)) = id := rfl
  rw [hcomp, List.map_id]

/-- A fully-folded two-number program, used to instantiate the
fixed-point property. -/
def exprTwoThree : Expression :=
  { delimiter := ','
    secondsPerInterval := 300
    performTimeSubstitutions := false
    tokens := [GoVal.gf (RVal.fin 2), GoVal.gf (RVal.fin 3)]
    scratch := []
    openBindings := (∅ : OpenB) }

/-- C6 witness: the fixed-point theorem instantiated at the all-numeric
program `2,3` with empty bindings. -/
theorem C6_partial_fixed_point_witness :
    (∀ t ∈ exprTwoThree.tokens, ∃ x, t = GoVal.gf x)
  ∧ (∃ e₂, exprTwoThree.partialApply dummyOps (∅ : Bindings) = Except.ok e₂
      ∧ e₂.tokens = exprTwoThree.tokens
      ∧ e₂.delimiter = exprTwoThree.delimiter
      ∧ e₂.secondsPerInterval = exprTwoThree.secondsPerInterval
      ∧ e₂.performTimeSubstitutions = exprTwoThree.performTimeSubstitutions
      ∧ Expression.render e₂ = Expression.render exprTwoThree) := by
  have h : ∀ t ∈ exprTwoThree.tokens, ∃ x, t = GoVal.gf x := by
    intro t ht
    simp only [exprTwoThree, List.mem_cons, List.not_mem_nil, or_false] at ht
    rcases ht with h1 | h1 <;> exact ⟨_, h1⟩
  exact ⟨h, C6_partial_fixed_point dummyOps exprTwoThree (∅ : Bindings) h⟩

/-- C6 counterexample: `Partial` staged over `x,y,/` is not the same as
one `Partial` with the union of the bindings.  Binding y to 0 first
folds the division of the still-symbolic x by zero to NaN (rendered
UNKN), so the later binding of x is never consulted; binding both at
once computes 5/0 = +Inf (rendered INF). -/
theorem C6_counterexample_staged_vs_union :
    ((newExpr dummyOps ["x", "y", "/"]).bind (fun e =>
        (e.partialApply dummyOps [("y", BVal.scalar (RVal.fin 0))]).bind (fun e₂ =>
          e₂.partialApply dummyOps [("x", BVal.scalar (RVal.fin 5))]))).map
        Expression.render = Except.ok "UNKN"
  ∧ ((newExpr dummyOps ["x", "y", "/"]).bind (fun e =>
        e.partialApply dummyOps [("x", BVal.scalar (RVal.fin 5)),
          ("y", BVal.scalar (RVal.fin 0))])).map Expression.render = Except.ok "INF"
  ∧ "UNKN" ≠ "INF" :=
  ⟨by rfl, by rfl, by decide⟩

set_option maxHeartbeats 1600000 in
unseal Rat.mul Rat.add Rat.sub Rat.inv in
/-- C7 (corrected): DEPTH is indeed always resolvable — on any stack it
succeeds without deferring — but it pushes the PRE-push depth (the
number of items already on the stack, not counting the new item), and
it stores it as a Go `int`, not a `float64`.  The int renders as its
decimal numeral (so `DEPTH` alone renders as `0`, not `1`), but it does
not behave as a number afterwards: a direct `Evaluate` of the cell
reports `expected float64 result: int`; a windowed aggregate whose
window reaches the cell panics with an interface-conversion failure;
and re-parsing a residual containing the int token is the
`unexpected token type` syntax error. -/
theorem C7_depth_int_cell :
    (∀ (ctx : SimCtx) (st : List Cell) (ob : OpenB) (pos : ℕ),
      stepTok ctx (GoVal.gs "DEPTH") st ob pos =
        Except.ok ((⟨GoVal.gi st.length, true⟩ : Cell) :: st, ob))
  ∧ (∀ n : ℕ, renderTok (GoVal.gi n) = toString n)
  ∧ (∀ n : ℕ, (GoVal.gi n).isGf = false ∧ (GoVal.gi n).typeName = "int")
  ∧ (newExpr dummyOps ["DEPTH"]).map Expression.render = Except.ok "0"
  ∧ (Expression.evaluate dummyOps 0
      { delimiter := ',', secondsPerInterval := 300, performTimeSubstitutions := false,
        tokens := [GoVal.gs "DEPTH"], scratch := [], openBindings := (∅ : OpenB) }
      (∅ : Bindings)).1 = Except.error (Err.expectedFloat "int")
  ∧ (newExpr dummyOps ["DEPTH"]).bind
      (fun e => (e.evaluate dummyOps 0 (∅ : Bindings)).1) =
      Except.error (synErr "unexpected token type at position 1: 0")
  ∧ (simplifyRun dummyOps 0 (∅ : Bindings) 300 false
      [GoVal.gf (RVal.fin 1), GoVal.gs "DEPTH", GoVal.gf (RVal.fin 2), GoVal.gs "AVG"]).2 =
      some (Err.panicked "interface conversion: interface is int, not float64") := by
  refine ⟨?_, fun n => rfl, fun n => ⟨rfl, rfl⟩, by rfl, by rfl, by rfl, by rfl⟩
  intro ctx st ob pos
  simp [stepTok, applyOp, arity, opBody, floatCheckOK, nonOpCells, scanNonOperator,
    bind, Except.bind]

unseal Rat.mul Rat.add Rat.sub Rat.inv in
/-- C7 counterexample: after `a,b,DEPTH` the residual renders `a,b,2` —
the depth not counting the pushed item (post-push depth would give
`a,b,3`) — and evaluating the folded `DEPTH` program fails instead of
yielding a number, because the stored cell is an int token. -/
theorem C7_counterexample_prepush_int :
    (newExpr dummyOps ["a", "b", "DEPTH"]).map Expression.render = Except.ok "a,b,2"
  ∧ "a,b,2" ≠ "a,b,3"
  ∧ (newExpr dummyOps ["DEPTH"]).bind
      (fun e => (e.evaluate dummyOps 0 (∅ : Bindings)).1) =
      Except.error (synErr "unexpected token type at position 1: 0")
  ∧ ∀ x : RVal, (Except.error (synErr "unexpected token type at position 1: 0") :
      Except Err RVal) ≠ Except.ok x :=
  ⟨by rfl, by decide, by rfl, fun x h => Except.noConfusion h⟩

/-- C8 (corrected): the persistent configuration of an Expression —
delimiter, seconds-per-interval, time-substitution flag, and compiled
token sequence — is indeed never changed by `Evaluate`, and `Partial`
only reads the receiver (its result is independent of the receiver's
work area).  But the receiver is NOT immutable: `Evaluate` runs
`simplify` on the receiver itself, overwriting its scratch stack and
open-bindings map (which is why concurrent calls on one instance are
unsafe). -/
theorem C8_receiver_mutation (T : TransOps) (now : ℚ) (e : Expression) (bnds : Bindings) :
    ((e.evaluate T now bnds).2.delimiter = e.delimiter
      ∧ (e.evaluate T now bnds).2.secondsPerInterval = e.secondsPerInterval
      ∧ (e.evaluate T now bnds).2.performTimeSubstitutions = e.performTimeSubstitutions
      ∧ (e.evaluate T now bnds).2.tokens = e.tokens)
  ∧ (∀ (sc : List Cell) (ob : OpenB),
      Expression.partialApply T
        { e with scratch := sc, openBindings := ob } bnds =
        Expression.partialApply T e bnds)
  ∧ (e.evaluate T now bnds).2.scratch = (e.simplifySt T now bnds).1.scratch
  ∧ (e.evaluate T now bnds).2.openBindings = (e.simplifySt T now bnds).1.openBindings := by
  have h2 : (e.evaluate T now bnds).2 = (e.simplifySt T now bnds).1 := by
    simp only [Expression.evaluate]
    rcases hsp : e.simplifySt T now bnds with ⟨post, err⟩
    rcases err with _ | err
    · simp only []
      split
      · rfl
      · split
        · rfl
        · split <;> rfl
    · rfl
  refine ⟨⟨?_, ?_, ?_, ?_⟩, fun sc ob => rfl, ?_, ?_⟩ <;> rw [h2] <;> rfl

/-- A one-symbol program with a blank work area, the receiver of the
mutation counterexample. -/
def exprSymX : Expression :=
  { delimiter := ','
    secondsPerInterval := 300
    performTimeSubstitutions := false
    tokens := [GoVal.gs "x"]
    scratch := []
    openBindings := (∅ : OpenB) }

/-- C8 counterexample: calling `Evaluate` with x bound to 7 leaves the
receiver's scratch stack holding the folded cell; the receiver's work
area before the call was empty, so the receiver was mutated. -/
theorem C8_counterexample_scratch_overwritten :
    (Expression.evaluate dummyOps 0 exprSymX
      [("x", BVal.scalar (RVal.fin 7))]).2.scratch = [fcell (RVal.fin 7)]
  ∧ exprSymX.scratch = []
  ∧ ([fcell (RVal.fin 7)] : List Cell) ≠ [] :=
  ⟨by rfl, by rfl, by decide⟩
